import Mathlib

/-!
Verification development for the sports-academy Next-Best-Action (NBA)
decisioning backend (`backend/app`).  The Python services are shallowly
embedded in Lean: pure functions become Lean functions, Django ORM access
becomes explicit state passing over list-backed stores, and `float`
arithmetic is modelled by exact rationals (`ℚ`), with the transcendental
UCB score (math.sqrt / math.log) modelled over `ℝ`.

Embedded modules:
  * `app/services/rl_engine.py`        — state encoding, Q-table, UCB selection,
                                          reward and Bellman update
  * `app/services/nba_engine.py`       — PolicyInputs, the rule engine
                                          (`_evaluate_rules` and all rules),
                                          `persist_nba_decision`
  * `app/services/context_service.py`  — `_create_artifact`
  * `app/services/interaction_processor.py` — `_derive_lead_status`,
                                          `_update_q_table_from_transition`,
                                          `process_interaction`
  * `app/services/sms_batcher.py`      — `check_sms_flush`, `flush_sms_thread`
  * `app/api/interactions.py`          — `SMSMessageView.post`
-/

/-- One entry of the `additional_signals` list (a Python dict; only the
`"urgency"` key is read by `rl_engine.encode_state`, via `dict.get`, which
yields `None` when the key is absent — hence `Option`). -/
structure Signal where
  urgency : Option String
deriving Repr, DecidableEq

/-- Embeds `nba_engine.PolicyInputs` — snapshot of all data the NBA engine evaluates.

The Python class defines exactly the fields below except `additionalSignals`:
`rl_engine.encode_state` and `action_briefs` read `inputs.additional_signals`
duck-typed (the attribute is absent from `nba_engine.PolicyInputs`; those
readers are never invoked on an instance built by `_build_policy_inputs`).
We carry the field explicitly so that `encode_state` can be expressed;
`build_policy_inputs` leaves it empty.
Python `None` string fields are `Option String`; float hours are `ℚ`. -/
structure PolicyInputs where
  lead_status : String
  total_interactions : Nat
  total_voice_attempts : Nat
  total_sms_attempts : Nat
  total_email_attempts : Nat
  last_interaction_channel : Option String
  last_interaction_status : Option String
  last_interaction_direction : Option String
  last_detected_intent : Option String
  last_sentiment : Option String
  hours_since_last_interaction : Option ℚ
  campaign_goal : Option String
  preferred_channel : Option String
  has_phone : Bool
  has_email : Bool
  financial_concern_level : String := "none"
  has_unaddressed_objections : Bool := false
  objection_topics : List String := []
  has_scheduling_constraints : Bool := false
  has_siblings : Bool := false
  has_pending_decision_makers : Bool := false
  additionalSignals : List Signal := []
deriving Repr, DecidableEq

/- ─── rl_engine.py: constants ─────────────────────────────────────────── -/

/-- Embeds `rl_engine.ALPHA` — learning rate. -/
def ALPHA : ℚ := 0.1

/-- Embeds `rl_engine.GAMMA` — discount factor. -/
def GAMMA : ℚ := 0.9

/-- Embeds `rl_engine.UCB_C` — exploration coefficient. -/
def UCB_C : ℝ := 1.0

/-- Embeds `rl_engine.SEMANTIC_ACTIONS` — the fixed 12-action catalog. -/
def SEMANTIC_ACTIONS : List String :=
  [ "warm_follow_up", "scheduling_push", "scholarship_outreach", "info_send",
    "gentle_nudge", "objection_address", "welcome_onboard", "retention_check_in",
    "family_engage", "channel_switch", "wait", "stop" ]

/-- Embeds `rl_engine.TRANSITION_REWARDS` — rewards keyed by (from_status, to_status). -/
def TRANSITION_REWARDS : List ((String × String) × ℚ) :=
  [ (("new", "contacted"), 0.1),
    (("contacted", "interested"), 0.4),
    (("interested", "trial"), 0.7),
    (("trial", "enrolled"), 1.0),
    (("enrolled", "active"), 0.3),
    (("active", "at_risk"), -0.5),
    (("at_risk", "inactive"), -0.7),
    (("at_risk", "active"), 0.5),
    (("inactive", "at_risk"), 0.3),
    (("inactive", "active"), 0.6) ]

/-- Embeds `rl_engine.DECLINED_REWARD`. -/
def DECLINED_REWARD : ℚ := -1.0

/-- Embeds `rl_engine.STALL_REWARD`. -/
def STALL_REWARD : ℚ := -0.02

/- ─── rl_engine.py: state encoding ────────────────────────────────────── -/

/-- The `context` bucket cascade inside `rl_engine.encode_state`
(first match wins, translated clause by clause from the source). -/
def context_bucket (inputs : PolicyInputs) : String :=
  if inputs.last_interaction_status = some "no_answer" ∨
     inputs.last_interaction_status = some "voicemail" then "unreached"
  else if inputs.last_detected_intent = some "declining" ∧
          inputs.last_sentiment = some "negative" then "negative"
  else if inputs.last_detected_intent = some "scheduling" then "scheduling_intent"
  else if inputs.last_detected_intent = some "interested" ∧
          inputs.last_sentiment = some "positive" then "positive_engagement"
  else if inputs.financial_concern_level = "moderate" ∨
          inputs.financial_concern_level = "high" then "financial_concern"
  else if inputs.has_unaddressed_objections then "has_objections"
  else if inputs.has_pending_decision_makers ∨ inputs.has_siblings then "family_context"
  else if inputs.last_detected_intent = some "considering" then "considering"
  else if ¬ inputs.additionalSignals.isEmpty ∧
          inputs.additionalSignals.any
            (fun s => s.urgency = some "moderate" ∨ s.urgency = some "high")
       then "novel_signal"
  else "neutral"

/-- Embeds `rl_engine.encode_state` — encode PolicyInputs into the discrete state
string `"lead_status:context_bucket"`. -/
def encode_state (inputs : PolicyInputs) : String :=
  inputs.lead_status ++ ":" ++ context_bucket inputs

/- ─── rl_engine.py: Q-table ───────────────────────────────────────────── -/

/-- A row of the `q_values` table (`models/q_value.py`; the schema declares
`unique_together = ("state", "action")`). -/
structure QValueEntry where
  state : String
  action : String
  q_value : ℚ
  visit_count : Nat
  total_reward : ℚ
deriving Repr, DecidableEq

/-- The Q-table: the list of persisted `QValue` rows, in creation order. -/
abbrev QTable := List QValueEntry

/-- Row predicate for key (state, action). -/
def qkeyed (s a : String) (e : QValueEntry) : Bool :=
  e.state = s ∧ e.action = a

/-- The stored row for (state, action), if any.  (Building a Python dict
from a queryset lets a later row overwrite an earlier one, so the last
matching row is taken; the unique constraint makes at most one exist.) -/
def stored_entry (t : QTable) (s a : String) : Option QValueEntry :=
  (t.filter (qkeyed s a)).getLast?

/-- Default row used by `get_or_create` / `get_all_q_values`:
q_value 0, visit_count 0, total_reward 0. -/
def fresh_entry (s a : String) : QValueEntry :=
  { state := s, action := a, q_value := 0, visit_count := 0, total_reward := 0 }

/-- Embeds `rl_engine.get_all_q_values` — the dict built for a state has exactly the
catalog actions as keys, each mapped to the stored row or a fresh default. -/
def get_all_q_values (t : QTable) (s : String) : String → Option QValueEntry :=
  fun a =>
    if SEMANTIC_ACTIONS.contains a then
      some ((stored_entry t s a).getD (fresh_entry s a))
    else
      none

/-- Embeds `rl_engine.get_max_q` — maximum stored q_value for a state (0 if the
state has no rows). -/
def get_max_q (t : QTable) (s : String) : ℚ :=
  (((t.filter (fun e => e.state = s)).map (fun e => e.q_value)).max?).getD 0

/- ─── rl_engine.py: UCB action selection ──────────────────────────────── -/

/-- Candidate list actually iterated by `select_action`:
`actions = available_actions or SEMANTIC_ACTIONS` (Python: `None` and the
empty list are both falsy). -/
def selection_pool (available : Option (List String)) : List String :=
  match available with
  | none => SEMANTIC_ACTIONS
  | some l => if l.isEmpty then SEMANTIC_ACTIONS else l

/-- Embeds `exploitation` for one action inside `select_action`:
the stored q_value via the per-state dict, 0 when the dict lacks the key. -/
def exploitation (t : QTable) (s a : String) : ℚ :=
  match get_all_q_values t s a with
  | some e => e.q_value
  | none => 0

/-- Embeds `visit_count` for one action inside `select_action`. -/
def sel_visits (t : QTable) (s a : String) : Nat :=
  match get_all_q_values t s a with
  | some e => e.visit_count
  | none => 0

/-- Embeds `total_visits = sum(q_values[a].visit_count for a in actions if a in q_values)`:
only candidates present in the per-state dict (catalog members) contribute. -/
def total_visits (t : QTable) (s : String) (actions : List String) : Nat :=
  ((actions.filter (fun a => SEMANTIC_ACTIONS.contains a)).map
    (fun a => sel_visits t s a)).sum

/-- The UCB exploration bonus: `UCB_C * 2.0` for an untried action, else
`UCB_C * sqrt(log(total_visits + 1) / visit_count)`. -/
noncomputable def exploration_bonus (total : Nat) (v : Nat) : ℝ :=
  if v = 0 then UCB_C * 2.0
  else UCB_C * Real.sqrt (Real.log (total + 1) / v)

/-- The UCB score of one candidate: exploitation + exploration bonus. -/
noncomputable def ucb_score (t : QTable) (s : String) (actions : List String)
    (a : String) : ℝ :=
  (exploitation t s a : ℝ) + exploration_bonus (total_visits t s actions) (sel_visits t s a)

/-- One iteration of the selection loop.  The accumulator is `none` before
the first iteration, modelling `best_score = -inf` (any finite score beats
it); afterwards it is `some (best_action, best_score, best_q)`, and a later
candidate replaces it only on a strictly greater score. -/
noncomputable def sel_step (score : String → ℝ) (q : String → ℚ)
    (acc : Option (String × ℝ × ℚ)) (a : String) : Option (String × ℝ × ℚ) :=
  match acc with
  | none => some (a, score a, q a)
  | some (b, bs, bq) => if score a > bs then some (a, score a, q a) else some (b, bs, bq)

/-- Embeds `rl_engine.select_action` — UCB selection; returns
`(best_action, best_q)` where `best_q` is the raw stored value of the
chosen action (not the UCB-augmented score).  The pool is never empty, so
the fold always yields `some`; the `none` fallback is unreachable. -/
noncomputable def select_action (t : QTable) (s : String)
    (available : Option (List String)) : String × ℚ :=
  let actions := selection_pool available
  let score := ucb_score t s actions
  let q := fun a => exploitation t s a
  match actions.foldl (sel_step score q) none with
  | some (b, _, bq) => (b, bq)
  | none => ("", 0)

/- ─── rl_engine.py: reward and Bellman update ─────────────────────────── -/

/-- Embeds `rl_engine.compute_reward` — reward for a status transition. -/
def compute_reward (status_before status_after : String) : ℚ :=
  if status_after = "declined" then DECLINED_REWARD
  else if status_before = status_after then STALL_REWARD
  else ((TRANSITION_REWARDS.lookup (status_before, status_after)).getD 0)

/-- A `state_transitions` row (`models/state_transition.py`). -/
structure StateTransitionRec where
  lead_id : String
  nba_decision_id : Nat
  state_before : String
  action_taken : String
  state_after : String
  reward : ℚ
  q_value_before : ℚ
  q_value_after : ℚ
deriving Repr, DecidableEq

/-- The mutated Q-table after saving the updated entry: replace the stored
row in place, or append the row freshly created by `get_or_create`. -/
def save_entry (t : QTable) (s a : String) (e : QValueEntry) : QTable :=
  if (t.filter (qkeyed s a)).isEmpty then t ++ [e]
  else t.map (fun r => if qkeyed s a r then e else r)

/-- Embeds `rl_engine.update_q_table` — Bellman update after an observed transition:
reward from `compute_reward`, `new_q = old + ALPHA*(reward + GAMMA*max_q_next - old)`,
visit count +1, cumulative reward accrued, and a `StateTransition` row logged. -/
def update_q_table (t : QTable) (lead_id : String) (nba_decision_id : Nat)
    (state_before action_taken state_after status_before status_after : String) :
    QTable × StateTransitionRec :=
  let reward := compute_reward status_before status_after
  let max_q_next := get_max_q t state_after
  let q_entry := (stored_entry t state_before action_taken).getD
    (fresh_entry state_before action_taken)
  let old_q := q_entry.q_value
  let td_target := reward + GAMMA * max_q_next
  let td_error := td_target - old_q
  let new_q := old_q + ALPHA * td_error
  let q_entry := { q_entry with
    q_value := new_q
    visit_count := q_entry.visit_count + 1
    total_reward := q_entry.total_reward + reward }
  let transition : StateTransitionRec :=
    { lead_id := lead_id
      nba_decision_id := nba_decision_id
      state_before := state_before
      action_taken := action_taken
      state_after := state_after
      reward := reward
      q_value_before := old_q
      q_value_after := new_q }
  (save_entry t state_before action_taken q_entry, transition)

/- ─── nba_engine.py: settings and results ─────────────────────────────── -/

/-- Embeds `settings.MAX_ATTEMPTS_PER_CHANNEL` (default 3). -/
def MAX_ATTEMPTS_PER_CHANNEL : Nat := 3

/-- Embeds `settings.COOLDOWN_HOURS_AFTER_NO_RESPONSE` (default 24). -/
def COOLDOWN_HOURS_AFTER_NO_RESPONSE : ℚ := 24

/-- Embeds `settings.ESCALATION_AFTER_FAILED_ATTEMPTS` (default 5). -/
def ESCALATION_AFTER_FAILED_ATTEMPTS : Nat := 5

/-- Embeds `nba_engine.NBAResult` — the output of the rule engine.  Its `__init__`
sets exactly these six attributes.  Times are hours on a rational clock;
`reasoning` prose is abbreviated (no claim depends on its wording). -/
structure NBAResult where
  action : String
  channel : Option String
  priority : String
  reasoning : String
  rule_name : String
  scheduled_for : Option ℚ := none
deriving Repr, DecidableEq

/-- A Python attribute value, as far as the pipeline inspects it. -/
inductive PyVal where
  | vstr (s : String)
  | vnone
  | vtime (t : ℚ)
deriving Repr, DecidableEq

/-- Python attribute lookup on an `NBAResult` instance: defined exactly for
the six attributes its `__init__` assigns, `none` (AttributeError) for any
other name — in particular for `"semantic_action"` and `"state"`, which
only `action_briefs.ActionBrief` carries. -/
def NBAResult.pyAttr (r : NBAResult) : String → Option PyVal
  | "action" => some (.vstr r.action)
  | "channel" => some (match r.channel with | some c => .vstr c | none => .vnone)
  | "priority" => some (.vstr r.priority)
  | "reasoning" => some (.vstr r.reasoning)
  | "rule_name" => some (.vstr r.rule_name)
  | "scheduled_for" => some (match r.scheduled_for with | some u => .vtime u | none => .vnone)
  | _ => none

/- ─── nba_engine.py: the rules (priority order, first match wins) ─────── -/

/-- Embeds `_rule_terminal_state` — declined leads need no further action. -/
def rule_terminal_state (_now : ℚ) (inputs : PolicyInputs) : Option NBAResult :=
  if inputs.lead_status = "declined" then
    some { action := "no_action", channel := none, priority := "low",
           reasoning := "Family has declined; no further outreach.",
           rule_name := "terminal_state" }
  else none

/-- Embeds `_rule_opted_out` — respect opt-out. -/
def rule_opted_out (_now : ℚ) (inputs : PolicyInputs) : Option NBAResult :=
  if inputs.last_interaction_status = some "opted_out" then
    some { action := "no_action", channel := none, priority := "low",
           reasoning := "Lead opted out of communications.",
           rule_name := "opted_out" }
  else none

/-- Embeds `_rule_inbound_interest`. -/
def rule_inbound_interest (now : ℚ) (inputs : PolicyInputs) : Option NBAResult :=
  if inputs.last_interaction_direction = some "inbound" ∧
     (inputs.last_detected_intent = some "interested" ∨
      inputs.last_detected_intent = some "scheduling") then
    let channel := inputs.preferred_channel.getD "voice"
    some { action := "call", channel := some channel, priority := "urgent",
           reasoning := "Inbound interest; high-priority follow-up.",
           rule_name := "inbound_interest", scheduled_for := some (now + 1) }
  else none

/-- Embeds `_rule_scheduling_request`. -/
def rule_scheduling_request (now : ℚ) (inputs : PolicyInputs) : Option NBAResult :=
  if inputs.last_detected_intent = some "scheduling" then
    some { action := "schedule_visit", channel := some "voice", priority := "urgent",
           reasoning := "Lead wants to schedule; call immediately.",
           rule_name := "scheduling_request", scheduled_for := some (now + 0.5) }
  else none

/-- Embeds `_rule_requesting_info`. -/
def rule_requesting_info (now : ℚ) (inputs : PolicyInputs) : Option NBAResult :=
  if inputs.last_detected_intent = some "requesting_info" then
    let channel := if inputs.has_phone then "sms"
                   else if inputs.has_email then "email" else "voice"
    some { action := "sms", channel := some channel, priority := "high",
           reasoning := "Lead requested information; send details.",
           rule_name := "requesting_info", scheduled_for := some (now + 2) }
  else none

/-- Embeds `_rule_at_risk_reengagement`. -/
def rule_at_risk_reengagement (now : ℚ) (inputs : PolicyInputs) : Option NBAResult :=
  if inputs.lead_status = "at_risk" then
    let channel := inputs.preferred_channel.getD "voice"
    some { action := if channel = "voice" then "call" else channel,
           channel := some channel, priority := "high",
           reasoning := "Attendance dropping; proactive check-in.",
           rule_name := "at_risk_reengagement", scheduled_for := some (now + 4) }
  else none

/-- Embeds `_rule_inactive_winback`. -/
def rule_inactive_winback (now : ℚ) (inputs : PolicyInputs) : Option NBAResult :=
  if inputs.lead_status = "inactive" then
    let channel := if inputs.has_phone then "sms"
                   else if inputs.has_email then "email" else "voice"
    let hours_gap := inputs.hours_since_last_interaction.getD 0
    if hours_gap > 168 then
      some { action := "sms", channel := some channel, priority := "normal",
             reasoning := "Inactive over a week; win-back message.",
             rule_name := "inactive_winback", scheduled_for := some (now + 12) }
    else
      some { action := "wait", channel := none, priority := "low",
             reasoning := "Inactive but recently contacted; give space.",
             rule_name := "inactive_cooldown", scheduled_for := some (now + 72) }
  else none

/-- Embeds `_rule_active_checkin`. -/
def rule_active_checkin (now : ℚ) (inputs : PolicyInputs) : Option NBAResult :=
  if inputs.lead_status = "active" then
    let hours_gap := inputs.hours_since_last_interaction.getD 999
    if hours_gap > 168 then
      some { action := "sms", channel := some "sms", priority := "low",
             reasoning := "Active family; positive check-in.",
             rule_name := "active_checkin", scheduled_for := some (now + 48) }
    else
      some { action := "no_action", channel := none, priority := "low",
             reasoning := "Active and recently in touch; healthy state.",
             rule_name := "active_healthy" }
  else none

/-- Embeds `_rule_enrolled_welcome`. -/
def rule_enrolled_welcome (now : ℚ) (inputs : PolicyInputs) : Option NBAResult :=
  if inputs.lead_status = "enrolled" then
    let channel := inputs.preferred_channel.getD "sms"
    some { action := "sms", channel := some channel, priority := "high",
           reasoning := "Just enrolled; welcome message.",
           rule_name := "enrolled_welcome", scheduled_for := some (now + 2) }
  else none

/-- Embeds `_rule_financial_concern`. -/
def rule_financial_concern (now : ℚ) (inputs : PolicyInputs) : Option NBAResult :=
  if (inputs.financial_concern_level = "moderate" ∨
      inputs.financial_concern_level = "high") ∧
     inputs.last_detected_intent ≠ some "declining" ∧
     inputs.last_detected_intent ≠ some "objecting" then
    let channel := if inputs.has_phone then "sms"
                   else if inputs.has_email then "email" else "voice"
    let severity := inputs.financial_concern_level
    some { action := "sms", channel := some channel,
           priority := if severity = "high" then "high" else "normal",
           reasoning := "Financial concerns; send scholarship info.",
           rule_name := "financial_concern_outreach", scheduled_for := some (now + 4) }
  else none

/-- Embeds `_rule_unaddressed_objection`. -/
def rule_unaddressed_objection (now : ℚ) (inputs : PolicyInputs) : Option NBAResult :=
  if inputs.has_unaddressed_objections ∧
     inputs.last_detected_intent ≠ some "interested" ∧
     inputs.last_detected_intent ≠ some "scheduling" ∧
     inputs.last_detected_intent ≠ some "declining" ∧
     ¬ inputs.objection_topics.contains "cost" then
    let channel := if inputs.has_phone then "sms"
                   else if inputs.has_email then "email" else "voice"
    some { action := "sms", channel := some channel, priority := "normal",
           reasoning := "Unaddressed objections; send targeted info.",
           rule_name := "address_objections", scheduled_for := some (now + 12) }
  else none

/-- Embeds `_rule_pending_decision_maker`. -/
def rule_pending_decision_maker (now : ℚ) (inputs : PolicyInputs) : Option NBAResult :=
  if inputs.has_pending_decision_makers ∧
     (inputs.last_detected_intent = some "considering" ∨
      inputs.last_detected_intent = some "interested") ∧
     inputs.total_interactions ≥ 2 then
    some { action := "call", channel := some "voice", priority := "normal",
           reasoning := "Engage the other family decision-maker.",
           rule_name := "engage_decision_maker", scheduled_for := some (now + 24) }
  else none

/-- Embeds `_rule_sibling_opportunity`. -/
def rule_sibling_opportunity (now : ℚ) (inputs : PolicyInputs) : Option NBAResult :=
  if inputs.has_siblings ∧
     (inputs.last_detected_intent = some "interested" ∨
      inputs.last_detected_intent = some "scheduling") ∧
     inputs.last_sentiment = some "positive" then
    some { action := "call", channel := some "voice", priority := "normal",
           reasoning := "Interested lead with siblings; expansion opportunity.",
           rule_name := "sibling_opportunity", scheduled_for := some (now + 4) }
  else none

/-- Embeds `_rule_positive_engagement`. -/
def rule_positive_engagement (now : ℚ) (inputs : PolicyInputs) : Option NBAResult :=
  if inputs.last_detected_intent = some "interested" ∧
     inputs.last_sentiment = some "positive" then
    some { action := "call", channel := some "voice", priority := "high",
           reasoning := "Positive interest; prompt follow-up call.",
           rule_name := "positive_engagement", scheduled_for := some (now + 4) }
  else none

/-- Embeds `_rule_considering`. -/
def rule_considering (now : ℚ) (inputs : PolicyInputs) : Option NBAResult :=
  if inputs.last_detected_intent = some "considering" then
    some { action := "sms", channel := some "sms", priority := "normal",
           reasoning := "Lead on the fence; gentle SMS nudge.",
           rule_name := "considering_nudge", scheduled_for := some (now + 24) }
  else none

/-- Embeds `_rule_objecting`. -/
def rule_objecting (now : ℚ) (inputs : PolicyInputs) : Option NBAResult :=
  if (inputs.last_detected_intent = some "objecting" ∨
      inputs.last_detected_intent = some "declining") ∧
     inputs.last_sentiment = some "negative" then
    if inputs.total_interactions ≥ ESCALATION_AFTER_FAILED_ATTEMPTS then
      some { action := "no_action", channel := none, priority := "low",
             reasoning := "Declined after repeated interactions; stop.",
             rule_name := "objection_terminal" }
    else
      some { action := "sms", channel := some "sms", priority := "low",
             reasoning := "Objections; low-pressure SMS after a wait.",
             rule_name := "objection_soft_follow_up", scheduled_for := some (now + 48) }
  else none

/-- Embeds `_rule_channel_escalation`. -/
def rule_channel_escalation (now : ℚ) (inputs : PolicyInputs) : Option NBAResult :=
  if inputs.total_voice_attempts ≥ MAX_ATTEMPTS_PER_CHANNEL ∧
     inputs.last_interaction_channel = some "voice" ∧
     inputs.has_phone ∧ inputs.total_sms_attempts < MAX_ATTEMPTS_PER_CHANNEL then
    some { action := "sms", channel := some "sms", priority := "normal",
           reasoning := "Voice not connecting; switch to SMS.",
           rule_name := "channel_escalation_to_sms", scheduled_for := some (now + 12) }
  else if inputs.total_voice_attempts ≥ MAX_ATTEMPTS_PER_CHANNEL ∧
          inputs.last_interaction_channel = some "voice" ∧
          inputs.has_email ∧ inputs.total_email_attempts < MAX_ATTEMPTS_PER_CHANNEL then
    some { action := "email", channel := some "email", priority := "normal",
           reasoning := "Voice and SMS exhausted; try email.",
           rule_name := "channel_escalation_to_email", scheduled_for := some (now + 24) }
  else if inputs.total_sms_attempts ≥ MAX_ATTEMPTS_PER_CHANNEL ∧
          inputs.last_interaction_channel = some "sms" ∧
          inputs.has_phone ∧ inputs.total_voice_attempts < MAX_ATTEMPTS_PER_CHANNEL then
    some { action := "call", channel := some "voice", priority := "normal",
           reasoning := "SMS not answered; try a voice call.",
           rule_name := "channel_escalation_to_voice", scheduled_for := some (now + 12) }
  else none

/-- Embeds `_rule_voicemail_follow_up`. -/
def rule_voicemail_follow_up (now : ℚ) (inputs : PolicyInputs) : Option NBAResult :=
  if inputs.last_interaction_status = some "voicemail" then
    some { action := "sms", channel := some "sms", priority := "normal",
           reasoning := "Left voicemail; follow up with SMS.",
           rule_name := "voicemail_sms_follow_up", scheduled_for := some (now + 4) }
  else none

/-- Embeds `_rule_no_answer_retry`. -/
def rule_no_answer_retry (now : ℚ) (inputs : PolicyInputs) : Option NBAResult :=
  if inputs.last_interaction_status = some "no_answer" then
    let cooldown := COOLDOWN_HOURS_AFTER_NO_RESPONSE
    let channel := inputs.last_interaction_channel.getD "voice"
    some { action := if channel = "voice" then "call" else channel,
           channel := some channel, priority := "normal",
           reasoning := "No answer; retry after cooldown.",
           rule_name := "no_answer_retry", scheduled_for := some (now + cooldown) }
  else none

/-- Embeds `_rule_cool_down`. -/
def rule_cool_down (now : ℚ) (inputs : PolicyInputs) : Option NBAResult :=
  match inputs.hours_since_last_interaction with
  | some h =>
    if h < 4 then
      some { action := "wait", channel := none, priority := "low",
             reasoning := "Contacted very recently; wait.",
             rule_name := "cool_down", scheduled_for := some (now + 4) }
    else none
  | none => none

/-- Embeds `_rule_new_lead`. -/
def rule_new_lead (now : ℚ) (inputs : PolicyInputs) : Option NBAResult :=
  if inputs.lead_status = "new" ∧ inputs.total_interactions = 0 then
    let channel := inputs.preferred_channel.getD
      (if inputs.has_phone then "voice" else "sms")
    some { action := if channel = "voice" then "call" else channel,
           channel := some channel, priority := "high",
           reasoning := "New lead; initial outreach.",
           rule_name := "new_lead_initial_outreach", scheduled_for := some (now + 1) }
  else none

/-- Embeds `_rule_default` — catch-all, always matches. -/
def rule_default (now : ℚ) (inputs : PolicyInputs) : Option NBAResult :=
  let channel := inputs.preferred_channel.getD "voice"
  some { action := if channel = "voice" then "call" else channel,
         channel := some channel, priority := "normal",
         reasoning := "Standard follow-up on normal cadence.",
         rule_name := "default_follow_up", scheduled_for := some (now + 24) }

/-- The ordered rule list of `_evaluate_rules`. -/
def nba_rules : List (ℚ → PolicyInputs → Option NBAResult) :=
  [ rule_terminal_state, rule_opted_out,
    rule_inbound_interest, rule_scheduling_request, rule_requesting_info,
    rule_at_risk_reengagement, rule_inactive_winback, rule_active_checkin,
    rule_enrolled_welcome,
    rule_financial_concern, rule_unaddressed_objection,
    rule_pending_decision_maker, rule_sibling_opportunity,
    rule_positive_engagement, rule_considering, rule_objecting,
    rule_channel_escalation, rule_voicemail_follow_up, rule_no_answer_retry,
    rule_cool_down,
    rule_new_lead, rule_default ]

/-- Embeds `_evaluate_rules` — evaluate rules in priority order, first match wins;
the trailing safety net produces the `fallback` result (unreachable, since
`_rule_default` always matches). -/
def evaluate_rules (now : ℚ) (inputs : PolicyInputs) : NBAResult :=
  (nba_rules.findSome? (fun rule => rule now inputs)).getD
    { action := "no_action", channel := none, priority := "low",
      reasoning := "No applicable rule matched.",
      rule_name := "fallback" }

/- ─── context_service.py: artifacts ───────────────────────────────────── -/

/-- One objection record inside an `objections` artifact (a dict; only
`obj.get("topic", "unknown")` is read by `_load_enriched_context`). -/
structure ObjectionItem where
  topic : Option String
deriving Repr, DecidableEq

/-- The parsed payload of a `ContextArtifact.content` JSON string.  The
service always writes well-formed JSON for each type; `json.loads` failure
or a shape mismatch (the `except` path in `_load_enriched_context`)
corresponds to a content constructor not matching the artifact type. -/
inductive ArtifactContent where
  | financial (concern_level : String) (mentions : List String)
  | objections (items : List ObjectionItem)
  | scheduling (constraints preferred_times : List String)
  | family (siblings decision_makers notes : List String)
  | text (s : String)
  | textList (l : List String)
deriving Repr, DecidableEq

/-- A `context_artifacts` row (`models/context_artifact.py`; default query
ordering is `-created_at`, i.e. newest first — the store list is kept in
creation order, so "first" of a query is the last matching element). -/
structure Artifact where
  lead_id : String
  interaction_id : Option String
  artifact_type : String
  content : ArtifactContent
  version : Nat
  is_current : Bool
deriving Repr, DecidableEq

/-- Replace the first element satisfying `p` (used to model saving one
queried row back to the store). -/
def update_first {α : Type} (p : α → Bool) (f : α → α) : List α → List α
  | [] => []
  | x :: xs => if p x then f x :: xs else x :: update_first p f xs

/-- Update the last element satisfying `p` (the newest matching row). -/
def update_last {α : Type} (p : α → Bool) (f : α → α) (l : List α) : List α :=
  (update_first p f l.reverse).reverse

/-- Embeds `context_service._create_artifact` — create a new artifact and mark the
previously current one of this type (queried with `.first()`, i.e. the
newest) as non-current. -/
def create_artifact (store : List Artifact) (lead_id : String)
    (interaction_id : Option String) (artifact_type : String)
    (content : ArtifactContent) : List Artifact :=
  let is_cur := fun (a : Artifact) =>
    a.lead_id = lead_id ∧ a.artifact_type = artifact_type ∧ a.is_current
  let existing := (store.filter is_cur).getLast?
  let new_version := match existing with
    | some e => e.version + 1
    | none => 1
  let store := match existing with
    | some _ => update_last is_cur (fun a => { a with is_current := false }) store
    | none => store
  store ++ [{ lead_id := lead_id, interaction_id := interaction_id,
              artifact_type := artifact_type, content := content,
              version := new_version, is_current := true }]

/- ─── nba_engine.py: enriched-context loading ─────────────────────────── -/

/-- The accumulator dict of `_load_enriched_context`. -/
structure EnrichedContext where
  financial_concern_level : String := "none"
  objection_topics : List String := []
  has_unaddressed_objections : Bool := false
  has_scheduling_constraints : Bool := false
  has_siblings : Bool := false
  has_pending_decision_makers : Bool := false
deriving Repr, DecidableEq

/-- Embeds `CONCERN_LEVEL_ORDER.get(level, 0)` — ordinal rank of a concern level,
0 for unknown strings. -/
def concern_level_order (level : String) : Nat :=
  if level = "none" then 0
  else if level = "low" then 1
  else if level = "moderate" then 2
  else if level = "high" then 3
  else 0

/-- Append a topic if not already present (`if topic not in ...: append`). -/
def add_topic (topics : List String) (topic : String) : List String :=
  if topics.contains topic then topics else topics ++ [topic]

/-- One loop iteration of `_load_enriched_context` over a current artifact. -/
def enrich_step (acc : EnrichedContext) (a : Artifact) : EnrichedContext :=
  match a.artifact_type, a.content with
  | "financial_signals", .financial level _ =>
      if concern_level_order level > concern_level_order acc.financial_concern_level
      then { acc with financial_concern_level := level }
      else acc
  | "objections", .objections items =>
      let topics := items.foldl (fun ts o => add_topic ts (o.topic.getD "unknown"))
        acc.objection_topics
      { acc with objection_topics := topics,
                 has_unaddressed_objections :=
                   if ¬ items.isEmpty then true else acc.has_unaddressed_objections }
  | "scheduling_constraints", .scheduling constraints preferred_times =>
      if ¬ constraints.isEmpty ∨ ¬ preferred_times.isEmpty
      then { acc with has_scheduling_constraints := true }
      else acc
  | "family_context", .family siblings decision_makers _ =>
      let acc := if ¬ siblings.isEmpty then { acc with has_siblings := true } else acc
      if ¬ decision_makers.isEmpty
      then { acc with has_pending_decision_makers := true }
      else acc
  | _, _ => acc

/-- Embeds `nba_engine._load_enriched_context` — fold the merge loop over the
current artifacts of the lead (query order `-created_at`, that is store order
reversed; a type/payload mismatch is skipped like the `except` path). -/
def load_enriched_context (store : List Artifact) (lead_id : String) :
    EnrichedContext :=
  ((store.filter (fun a => a.lead_id = lead_id ∧ a.is_current)).reverse).foldl
    enrich_step {}

/- ─── Leads, interactions, LLM extraction ─────────────────────────────── -/

/-- A `leads` row (`models/lead.py`), restricted to the fields the embedded
services read.  Timestamps live on a rational clock measured in hours. -/
structure LeadRec where
  id : String
  status : String := "new"
  phone : Option String := none
  email : Option String := none
  campaign_goal : Option String := none
  preferred_channel : Option String := none
  total_interactions : Nat := 0
  total_voice_attempts : Nat := 0
  total_sms_attempts : Nat := 0
  total_email_attempts : Nat := 0
deriving Repr, DecidableEq

/-- Python truthiness of an optional string (`bool(lead.phone)`). -/
def truthy (o : Option String) : Bool :=
  match o with
  | some s => ¬ s.isEmpty
  | none => false

/-- An `interactions` row (`models/interaction.py`), restricted to the
fields the embedded services read. -/
structure InteractionRec where
  id : String
  channel : String
  direction : String
  status : String
  duration_seconds : Option Nat := none
  detected_intent : Option String := none
  sentiment : Option String := none
  created_at : Option ℚ := none
  processed : Bool := false
deriving Repr, DecidableEq

/-- Embeds `llm_service.LLMExtractionResult` — the structured record returned by
the (out-of-scope) extraction service, with the defaults its `__init__`
substitutes for missing sections. -/
structure LLMExtraction where
  summary : String
  facts : List String
  intent : String
  sentiment : String
  open_questions : List String := []
  financial_concern_level : String := "none"
  financial_mentions : List String := []
  scheduling_constraints : List String := []
  scheduling_preferred_times : List String := []
  family_siblings : List String := []
  family_decision_makers : List String := []
  family_notes : List String := []
  objections : List ObjectionItem := []
deriving Repr, DecidableEq

/-- Embeds `context_service.enrich_from_extraction` — persist extraction results
as artifacts (each section only when non-empty / non-default); returns the
new store and the number of artifacts created. -/
def enrich_from_extraction (store : List Artifact) (lead_id : String)
    (interaction_id : Option String) (e : LLMExtraction) :
    List Artifact × Nat :=
  let step := fun (acc : List Artifact × Nat) (cond : Bool) (ty : String)
      (content : ArtifactContent) =>
    if cond then (create_artifact acc.1 lead_id interaction_id ty content, acc.2 + 1)
    else acc
  let acc := (store, 0)
  let acc := step acc (¬ e.summary.isEmpty) "summary" (.text e.summary)
  let acc := step acc (¬ e.facts.isEmpty) "extracted_facts" (.textList e.facts)
  let acc := step acc (¬ e.intent.isEmpty) "detected_intent" (.text e.intent)
  let acc := step acc (¬ e.open_questions.isEmpty) "open_questions"
    (.textList e.open_questions)
  let acc := step acc (e.financial_concern_level ≠ "none") "financial_signals"
    (.financial e.financial_concern_level e.financial_mentions)
  let acc := step acc
    (¬ e.scheduling_constraints.isEmpty ∨ ¬ e.scheduling_preferred_times.isEmpty)
    "scheduling_constraints"
    (.scheduling e.scheduling_constraints e.scheduling_preferred_times)
  let acc := step acc
    (¬ e.family_siblings.isEmpty ∨ ¬ e.family_decision_makers.isEmpty ∨
     ¬ e.family_notes.isEmpty)
    "family_context" (.family e.family_siblings e.family_decision_makers e.family_notes)
  let acc := step acc (¬ e.objections.isEmpty) "objections" (.objections e.objections)
  acc

/- ─── nba_engine.py: building inputs and computing the NBA ────────────── -/

/-- Embeds `nba_engine._build_policy_inputs` — build PolicyInputs from lead state,
the last interaction, and the enriched context.  (The Python object carries
no `additional_signals` attribute; the model leaves the field empty.) -/
def build_policy_inputs (store : List Artifact) (now : ℚ) (lead : LeadRec)
    (last_interaction : Option InteractionRec) : PolicyInputs :=
  let hours_since : Option ℚ :=
    match last_interaction with
    | some li => match li.created_at with
                 | some t => some (now - t)
                 | none => none
    | none => none
  let enriched := load_enriched_context store lead.id
  { lead_status := lead.status
    total_interactions := lead.total_interactions
    total_voice_attempts := lead.total_voice_attempts
    total_sms_attempts := lead.total_sms_attempts
    total_email_attempts := lead.total_email_attempts
    last_interaction_channel := last_interaction.map (fun li => li.channel)
    last_interaction_status := last_interaction.map (fun li => li.status)
    last_interaction_direction := last_interaction.map (fun li => li.direction)
    last_detected_intent := last_interaction.bind (fun li => li.detected_intent)
    last_sentiment := last_interaction.bind (fun li => li.sentiment)
    hours_since_last_interaction := hours_since
    campaign_goal := lead.campaign_goal
    preferred_channel := lead.preferred_channel
    has_phone := truthy lead.phone
    has_email := truthy lead.email
    financial_concern_level := enriched.financial_concern_level
    has_unaddressed_objections := enriched.has_unaddressed_objections
    objection_topics := enriched.objection_topics
    has_scheduling_constraints := enriched.has_scheduling_constraints
    has_siblings := enriched.has_siblings
    has_pending_decision_makers := enriched.has_pending_decision_makers
    additionalSignals := [] }

/-- Embeds `nba_engine.compute_nba` — build policy inputs and evaluate the rules.
The caller supplies the latest interaction (the processor always passes
one; the endpoint fallback queries the newest stored interaction). -/
def compute_nba (store : List Artifact) (now : ℚ) (lead : LeadRec)
    (latest_interaction : Option InteractionRec) : NBAResult × PolicyInputs :=
  let inputs := build_policy_inputs store now lead latest_interaction
  (evaluate_rules now inputs, inputs)

/- ─── interaction_processor.py: status derivation ─────────────────────── -/

/-- The acquisition funnel order used by `_derive_lead_status`. -/
def acquisition_order : List String :=
  ["new", "contacted", "interested", "trial", "enrolled"]

/-- Embeds `interaction_processor._derive_retention_status` — status changes for
families already in the retention phase. -/
def derive_retention_status (current_status intent _interaction_status : String) :
    String :=
  if intent = "declining" then "inactive"
  else if intent = "interested" ∨ intent = "scheduling" ∨ intent = "attending" then
    "active"
  else if intent = "considering" ∨ intent = "requesting_info" then
    (if current_status = "inactive" then "at_risk" else current_status)
  else if intent = "objecting" then
    (if current_status = "active" then "at_risk" else current_status)
  else if intent = "no_response" ∨ intent = "unclear" then
    current_status
  else current_status

/-- The `intent_to_status` dict of `_derive_lead_status`, looked up with
default `current_status`. -/
def intent_to_status (current_status intent : String) : String :=
  if intent = "interested" then "interested"
  else if intent = "scheduling" then "trial"
  else if intent = "attending" then "trial"
  else if intent = "considering" then "interested"
  else if intent = "requesting_info" then "contacted"
  else if intent = "objecting" then
    (if current_status ≠ "new" then current_status else "contacted")
  else if intent = "declining" then "declined"
  else if intent = "no_response" then
    (if current_status ≠ "new" then current_status else "contacted")
  else if intent = "unclear" then
    (if current_status ≠ "new" then current_status else "contacted")
  else current_status

/-- Embeds `interaction_processor._derive_lead_status` — derive the new lead
status from the detected intent and the interaction status. -/
def derive_lead_status (current_status intent interaction_status : String) :
    String :=
  if interaction_status = "opted_out" then "declined"
  else if current_status = "enrolled" ∨ current_status = "active" ∨
          current_status = "at_risk" ∨ current_status = "inactive" then
    derive_retention_status current_status intent interaction_status
  else
    let proposed := intent_to_status current_status intent
    if proposed = "declined" ∨ proposed = "unresponsive" then proposed
    else
      let current_idx := if acquisition_order.contains current_status
                         then acquisition_order.indexOf current_status else 0
      let proposed_idx := if acquisition_order.contains proposed
                          then acquisition_order.indexOf proposed else 0
      if proposed_idx ≥ current_idx then proposed else current_status

/- ─── Persistence model ───────────────────────────────────────────────── -/

/-- An `nba_decisions` row (`models/nba_decision.py`), restricted to the
fields the embedded services touch. -/
structure DecisionRec where
  id : Nat
  lead_id : String
  interaction_id : Option String
  action : String
  channel : Option String
  priority : String
  scheduled_for : Option ℚ
  reasoning : String
  rule_name : String
  rl_state : Option String := none
  rl_q_value : Option ℚ := none
  is_current : Bool
  status : String
deriving Repr, DecidableEq

/-- A `scheduled_actions` row. -/
structure SchedActionRec where
  lead_id : String
  nba_decision_id : Nat
  action_type : String
  channel : String
  scheduled_at : ℚ
  status : String
deriving Repr, DecidableEq

/-- The database state threaded through the pipeline.  Lists are kept in
creation order; `events` records the event types appended to the
append-only event log. -/
structure DB where
  qtable : QTable := []
  transitions : List StateTransitionRec := []
  decisions : List DecisionRec := []
  scheduled_actions : List SchedActionRec := []
  artifacts : List Artifact := []
  events : List String := []
  next_decision_id : Nat := 0
deriving Repr, DecidableEq

/-- Embeds `nba_engine.persist_nba_decision` — supersede the previous current
decision (cancelling its pending scheduled actions) and create the new
one.  `NBADecision.objects.create` is passed neither `rl_state` nor
`rl_q_value`, so the model defaults (null) apply to the created row. -/
def persist_nba_decision (db : DB) (lead : LeadRec) (result : NBAResult)
    (interaction_id : Option String) (_inputs : PolicyInputs) :
    DB × DecisionRec :=
  let superseded_ids := ((db.decisions.filter
    (fun d => d.lead_id = lead.id ∧ d.is_current)).map (fun d => d.id))
  let decisions := db.decisions.map (fun d =>
    if d.lead_id = lead.id ∧ d.is_current
    then { d with is_current := false, status := "superseded" } else d)
  let scheduled := db.scheduled_actions.map (fun sa =>
    if superseded_ids.contains sa.nba_decision_id ∧ sa.status = "pending"
    then { sa with status := "cancelled" } else sa)
  let decision : DecisionRec :=
    { id := db.next_decision_id
      lead_id := lead.id
      interaction_id := interaction_id
      action := result.action
      channel := result.channel
      priority := result.priority
      scheduled_for := result.scheduled_for
      reasoning := result.reasoning
      rule_name := result.rule_name
      rl_state := none
      rl_q_value := none
      is_current := true
      status := "pending" }
  let new_scheduled : List SchedActionRec :=
    match result.scheduled_for with
    | some t =>
      if result.action ≠ "no_action" ∧ result.action ≠ "wait" then
        [{ lead_id := lead.id, nba_decision_id := decision.id,
           action_type := result.action, channel := result.channel.getD "voice",
           scheduled_at := t, status := "pending" }]
      else []
    | none => []
  ({ db with
      decisions := decisions ++ [decision]
      scheduled_actions := scheduled ++ new_scheduled
      next_decision_id := db.next_decision_id + 1 }, decision)

/- ─── interaction_processor.py: Q-update step and pipeline ────────────── -/

/-- The current decision of the lead:
`NBADecision.objects.filter(lead_id, is_current=True).first()` under the
model ordering `-created_at` — the newest matching row. -/
def current_decision (db : DB) (lead_id : String) : Option DecisionRec :=
  (db.decisions.filter (fun d => d.lead_id = lead_id ∧ d.is_current)).getLast?

/-- Embeds `interaction_processor._update_q_table_from_transition` — reward the
action of the previous decision after a status observation.  Returns the new DB
and the step message appended to `results["steps"]`, if any.  The guard
`if not previous_decision or not previous_decision.rl_state` treats both a
missing decision and a null/empty `rl_state` as "nothing to reward". -/
def update_q_table_from_transition (db : DB) (lead : LeadRec)
    (old_status new_status : String) : DB × Option String :=
  match current_decision db lead.id with
  | none => (db, none)
  | some previous =>
    if previous.rl_state = none ∨ previous.rl_state = some "" then (db, none)
    else
      let state_before := previous.rl_state.getD ""
      let action_taken := previous.action
      let state_parts := state_before.splitOn ":"
      let bucket := (state_parts.get? 1).getD "neutral"
      let state_after := new_status ++ ":" ++ bucket
      let res := update_q_table db.qtable lead.id previous.id
        state_before action_taken state_after old_status new_status
      ({ db with qtable := res.1, transitions := db.transitions ++ [res.2] },
       some "q_update")

/-- The exceptions the pipeline can raise. -/
inductive PyError where
  | valueError (msg : String)
  | attributeError (obj attr : String)
deriving Repr, DecidableEq

/-- Embeds `interaction_processor.process_interaction` — the full processing
pipeline for a completed interaction.  The LLM extraction (an external
HTTP call) is supplied as a value; steps 3–6 run inside one transaction,
so an exception there rolls their writes back (the caller keeps the
pre-transaction state).  Returns the committed DB, the updated lead and
the ordered step list — or the exception raised. -/
def process_interaction (db : DB) (lead : Option LeadRec)
    (interaction : InteractionRec) (extraction : LLMExtraction) (now : ℚ) :
    Except PyError (DB × LeadRec × List String) :=
  match lead with
  | none => .error (.valueError "Lead not found")
  | some lead =>
    -- Step 1: interaction event (outside the transaction)
    let db := { db with events := db.events ++ ["interaction_completed"] }
    let steps := ["event_logged"]
    -- Step 2: LLM extraction applied to the interaction (outside the txn)
    let interaction := { interaction with
      detected_intent := some extraction.intent
      sentiment := some extraction.sentiment
      processed := true }
    let steps := steps ++ ["llm_extraction"]
    -- Steps 3-6 (one transaction)
    -- Step 3: context artifacts
    let enr := enrich_from_extraction db.artifacts lead.id (some interaction.id)
      extraction
    let db := { db with artifacts := enr.1,
                        events := db.events ++ ["context_enriched"] }
    let steps := steps ++ [s!"context_artifacts_created ({enr.2})"]
    -- Step 4: lead counters and status derivation
    let old_status := lead.status
    let lead := { lead with
      total_interactions := lead.total_interactions + 1
      total_voice_attempts :=
        lead.total_voice_attempts + (if interaction.channel = "voice" then 1 else 0)
      total_sms_attempts :=
        lead.total_sms_attempts + (if interaction.channel = "sms" then 1 else 0)
      total_email_attempts :=
        lead.total_email_attempts + (if interaction.channel = "email" then 1 else 0) }
    let new_status := derive_lead_status old_status extraction.intent interaction.status
    let lead := if new_status ≠ old_status then { lead with status := new_status } else lead
    let db := if new_status ≠ old_status
              then { db with events := db.events ++ ["status_changed"] } else db
    let steps := steps ++
      (if new_status ≠ old_status
       then [s!"status_updated ({old_status} -> {new_status})"] else [])
    -- Step 5: Q-table update (reward previous action)
    let q := update_q_table_from_transition db lead old_status new_status
    let db := q.1
    let steps := steps ++ (match q.2 with | some m => [m] | none => [])
    -- Step 6: compute and persist the NBA
    let nba := compute_nba db.artifacts now lead (some interaction)
    let action_brief := nba.1
    let per := persist_nba_decision db lead action_brief (some interaction.id) nba.2
    let db := per.1
    -- `results["steps"].append(f"nba_produced ({action_brief.semantic_action}/...)")`
    -- reads an attribute `NBAResult.__init__` never sets.
    match action_brief.pyAttr "semantic_action" with
    | none => .error (.attributeError "NBAResult" "semantic_action")
    | some _ =>
      let steps := steps ++ ["nba_produced"]
      let db := { db with events := db.events ++ ["nba_produced"] }
      let steps := steps ++ ["committed"]
      .ok (db, lead, steps)

/- ─── sms_batcher.py and the SMS endpoint ─────────────────────────────── -/

/-- Embeds `sms_batcher.QUIET_PERIOD` (minutes; the batcher clock is in minutes). -/
def QUIET_PERIOD : ℚ := 5

/-- Embeds `sms_batcher.MAX_ACCUMULATION` (minutes). -/
def MAX_ACCUMULATION : ℚ := 15

/-- Embeds `sms_batcher.MAX_BUFFERED_MESSAGES`. -/
def MAX_BUFFERED_MESSAGES : Nat := 6

/-- An `sms_buffer` row (`models/sms_buffer.py`). -/
structure BufMsg where
  lead_id : String
  direction : String
  body : String
  received_at : ℚ
  is_urgent : Bool := false
  flushed : Bool := false
  interaction_id : Option String := none
deriving Repr, DecidableEq

/-- The pending (unflushed) rows of a lead, in `received_at` order (rows are
stored in arrival order on a monotone clock). -/
def pending_msgs (buf : List BufMsg) (lead_id : String) : List BufMsg :=
  buf.filter (fun m => m.lead_id = lead_id ∧ m.flushed = false)

/-- Embeds `sms_batcher.flush_sms_thread` — collect the unflushed rows of the lead,
mark them flushed and hand the combined thread to `process_interaction`
on the interaction of the last row (that downstream call is outside the flush
transaction and outside this model).  Returns the new buffer and the
number of rows flushed — `none` when there was nothing to flush or the
last row has no linked interaction (both return `None` without marking). -/
def flush_sms_thread (buf : List BufMsg) (lead_id : String) :
    List BufMsg × Option Nat :=
  let buf_list := pending_msgs buf lead_id
  match buf_list.getLast? with
  | none => (buf, none)
  | some last =>
    match last.interaction_id with
    | none => (buf, none)
    | some _ =>
      (buf.map (fun m =>
        if m.lead_id = lead_id ∧ m.flushed = false
        then { m with flushed := true } else m),
       some buf_list.length)

/-- Outcome of one `check_sms_flush` task run (its status string). -/
inductive FlushOutcome where
  | noPending
  | flushedNow (n : Nat)
  | rescheduled
deriving Repr, DecidableEq

/-- Embeds `sms_batcher.check_sms_flush` — evaluate the three flush criteria for a
pending thread of the lead: flush when the count reaches the maximum, the
age of the oldest message reaches the accumulation window, or the age of the newest
message reaches the quiet period; otherwise re-arm the deferred
check (`async_task`) and leave the buffer untouched. -/
def check_sms_flush (buf : List BufMsg) (lead_id : String) (now : ℚ) :
    List BufMsg × FlushOutcome :=
  let pending := pending_msgs buf lead_id
  let count := pending.length
  if count = 0 then (buf, .noPending)
  else
    let oldest := ((pending.map (fun m => m.received_at)).min?).getD 0
    let newest := ((pending.map (fun m => m.received_at)).max?).getD 0
    let should_flush := count ≥ MAX_BUFFERED_MESSAGES ∨
      now - oldest ≥ MAX_ACCUMULATION ∨ now - newest ≥ QUIET_PERIOD
    if should_flush then
      let res := flush_sms_thread buf lead_id
      (res.1, .flushedNow count)
    else (buf, .rescheduled)

/-- Embeds `api/interactions.SMSMessageView.post` — receive one SMS: create its
interaction record and buffer row immediately; if the urgency scan matched
(`is_urgent = scan_for_urgency(body)`, whose regex layer is the
text-analysis boundary of this model), flush the thread synchronously;
otherwise schedule a deferred `check_sms_flush`.  Returns the new buffer
and whether a synchronous flush was performed. -/
def sms_message_post (buf : List BufMsg) (lead_id : String)
    (direction body : String) (interaction_id : String) (received_at : ℚ)
    (is_urgent : Bool) : List BufMsg × Bool :=
  let msg : BufMsg :=
    { lead_id := lead_id, direction := direction, body := body,
      received_at := received_at, is_urgent := is_urgent, flushed := false,
      interaction_id := some interaction_id }
  let buf := buf ++ [msg]
  if is_urgent then
    ((flush_sms_thread buf lead_id).1, true)
  else
    (buf, false)

/- ─── Spec-side definitions (for refinement statements) ───────────────── -/

/-- Modelled from the spec (§4.2) wording of the bucket cascade of the state encoder
precedence, first match wins: (1) last interaction unreached
(no-answer/voicemail); (2) last intent declining AND sentiment negative;
(3) last intent scheduling; (4) last intent interested AND sentiment
positive; (5) financial concern moderate/high; (6) unaddressed objections
present; (7) pending decision-maker OR siblings present; (8) last intent
considering; (9) any additional signal with moderate/high urgency;
(10) default neutral.  Compared against the source-derived
`context_bucket`. -/
def spec_context_bucket (inputs : PolicyInputs) : String :=
  if inputs.last_interaction_status = some "no_answer" ∨
     inputs.last_interaction_status = some "voicemail" then "unreached"
  else if inputs.last_detected_intent = some "declining" ∧
          inputs.last_sentiment = some "negative" then "negative"
  else if inputs.last_detected_intent = some "scheduling" then "scheduling_intent"
  else if inputs.last_detected_intent = some "interested" ∧
          inputs.last_sentiment = some "positive" then "positive_engagement"
  else if inputs.financial_concern_level = "moderate" ∨
          inputs.financial_concern_level = "high" then "financial_concern"
  else if inputs.has_unaddressed_objections then "has_objections"
  else if inputs.has_pending_decision_makers ∨ inputs.has_siblings then "family_context"
  else if inputs.last_detected_intent = some "considering" then "considering"
  else if inputs.additionalSignals.any
            (fun s => s.urgency = some "moderate" ∨ s.urgency = some "high")
       then "novel_signal"
  else "neutral"

/-- The running best of the selection loop, as a plain fold on action
names: a later candidate displaces the champion only on a strictly
greater score. -/
noncomputable def sel_champion (score : String → ℝ) (b : String) (l : List String) : String :=
  l.foldl (fun c a => if score a > score c then a else c) b

/- ═══════════════════════════ Theorems ════════════════════════════════ -/

/- ─── Selection-loop lemmas (shared by the UCB claims) ────────────────── -/

/-- Unfolding lemma: one step of the champion fold. -/
theorem sel_champion_cons (score : String → ℝ) (b a : String) (l : List String) :
    sel_champion score b (a :: l) =
      sel_champion score (if score a > score b then a else b) l := by
  simp [sel_champion]

/-- The selection fold, seeded with a champion triple, tracks the champion,
its score and its raw value. -/
theorem sel_fold_from_some (score : String → ℝ) (q : String → ℚ) :
    ∀ (l : List String) (b : String),
    l.foldl (sel_step score q) (some (b, score b, q b)) =
      some (sel_champion score b l, score (sel_champion score b l),
            q (sel_champion score b l)) := by
  intro l
  induction l with
  | nil => intro b; simp [sel_champion]
  | cons a l ih =>
    intro b
    rw [List.foldl_cons, sel_champion_cons]
    by_cases h : score a > score b
    · rw [show sel_step score q (some (b, score b, q b)) a =
          some (a, score a, q a) by simp [sel_step, h], if_pos h]
      exact ih a
    · rw [show sel_step score q (some (b, score b, q b)) a =
          some (b, score b, q b) by simp [sel_step, h], if_neg h]
      exact ih b

/-- The champion is one of the candidates. -/
theorem sel_champion_mem (score : String → ℝ) :
    ∀ (l : List String) (b : String), sel_champion score b l ∈ b :: l := by
  intro l
  induction l with
  | nil => intro b; simp [sel_champion]
  | cons a l ih =>
    intro b
    rw [sel_champion_cons]
    by_cases h : score a > score b
    · rw [if_pos h]
      exact List.mem_cons_of_mem b (ih a)
    · rw [if_neg h]
      rcases List.mem_cons.mp (ih b) with h1 | h1
      · rw [h1]; exact List.mem_cons_self b (a :: l)
      · exact List.mem_cons_of_mem b (List.mem_cons_of_mem a h1)

/-- No candidate scores above the champion. -/
theorem sel_champion_ub (score : String → ℝ) :
    ∀ (l : List String) (b : String), ∀ x ∈ b :: l,
      score x ≤ score (sel_champion score b l) := by
  intro l
  induction l with
  | nil =>
    intro b x hx
    rcases List.mem_cons.mp hx with rfl | h1
    · simp [sel_champion]
    · simp at h1
  | cons a l ih =>
    intro b x hx
    rw [sel_champion_cons]
    by_cases h : score a > score b
    · rw [if_pos h]
      rcases List.mem_cons.mp hx with h1 | hx'
      · rw [h1]
        exact le_trans (le_of_lt h) (ih a a (List.mem_cons_self a l))
      · rcases List.mem_cons.mp hx' with h1 | hx''
        · rw [h1]
          exact ih a a (List.mem_cons_self a l)
        · exact ih a x (List.mem_cons_of_mem a hx'')
    · rw [if_neg h]
      rcases List.mem_cons.mp hx with h1 | hx'
      · rw [h1]
        exact ih b b (List.mem_cons_self b l)
      · rcases List.mem_cons.mp hx' with h1 | hx''
        · rw [h1]
          exact le_trans (le_of_not_lt h) (ih b b (List.mem_cons_self b l))
        · exact ih b x (List.mem_cons_of_mem b hx'')

/-- First-match tie-breaking: every candidate strictly before the champion
scores strictly below it. -/
theorem sel_champion_first (score : String → ℝ) :
    ∀ (l : List String) (b : String),
    ∃ l₁ l₂, b :: l = l₁ ++ sel_champion score b l :: l₂ ∧
      ∀ x ∈ l₁, score x < score (sel_champion score b l) := by
  intro l
  induction l with
  | nil =>
    intro b
    exact ⟨[], [], by simp [sel_champion], by simp⟩
  | cons a l ih =>
    intro b
    rw [sel_champion_cons]
    by_cases h : score a > score b
    · rw [if_pos h]
      obtain ⟨m₁, m₂, hm, hlt⟩ := ih a
      refine ⟨b :: m₁, m₂, ?_, ?_⟩
      · rw [List.cons_append, ← hm]
      · intro x hx
        rcases List.mem_cons.mp hx with rfl | hx'
        · exact lt_of_lt_of_le h (sel_champion_ub score l a a (List.mem_cons_self a l))
        · exact hlt x hx'
    · rw [if_neg h]
      obtain ⟨m₁, m₂, hm, hlt⟩ := ih b
      cases m₁ with
      | nil =>
        simp only [List.nil_append] at hm
        have hb : b = sel_champion score b l := (List.cons.injEq _ _ _ _ |>.mp hm).1
        refine ⟨[], a :: l, ?_, by simp⟩
        rw [List.nil_append, ← hb]
      | cons y m₁' =>
        rw [List.cons_append] at hm
        obtain ⟨hy, hl⟩ := List.cons.injEq _ _ _ _ |>.mp hm
        refine ⟨b :: a :: m₁', m₂, ?_, ?_⟩
        · rw [List.cons_append, List.cons_append, ← hl]
        · intro x hx
          have hb : score b < score (sel_champion score b l) := by
            have := hlt y (List.mem_cons_self y m₁')
            rwa [← hy] at this
          rcases List.mem_cons.mp hx with rfl | hx'
          · exact hb
          · rcases List.mem_cons.mp hx' with rfl | hx''
            · exact lt_of_le_of_lt (le_of_not_lt h) hb
            · exact hlt x (List.mem_cons_of_mem y hx'')

/-- Embeds `select_action` on a non-empty explicit candidate list computes the
champion of the UCB score and returns its raw stored value. -/
theorem select_action_eq (t : QTable) (s : String) (a : String) (l : List String) :
    select_action t s (some (a :: l)) =
      (sel_champion (ucb_score t s (a :: l)) a l,
       exploitation t s (sel_champion (ucb_score t s (a :: l)) a l)) := by
  unfold select_action selection_pool
  simp only [List.isEmpty_cons, Bool.false_eq_true, if_false, List.foldl_cons]
  rw [show sel_step (ucb_score t s (a :: l)) (fun x => exploitation t s x) none a =
      some (a, ucb_score t s (a :: l) a, exploitation t s a) from rfl]
  rw [sel_fold_from_some (ucb_score t s (a :: l)) (fun x => exploitation t s x) l a]

/- ─── C5: state encoding ──────────────────────────────────────────────── -/

/-- Claim C5. State encoding is a pure function of PolicyInputs returning
`"{lifecycle_status}:{context_bucket}"`, with the bucket chosen by the fixed
first-match-wins precedence (1) unreached, (2) negative,
(3) scheduling_intent, (4) positive_engagement, (5) financial_concern,
(6) has_objections, (7) family_context, (8) considering, (9) novel_signal,
(10) neutral (the spec-worded `spec_context_bucket`); in particular a lead
at status "active" whose last interaction status is "no_answer" and whose
financial concern is "high" encodes to "active:unreached". -/
theorem c5_state_encoding :
    (∀ inputs : PolicyInputs, encode_state inputs =
      inputs.lead_status ++ ":" ++ spec_context_bucket inputs) ∧
    encode_state
      { lead_status := "active", total_interactions := 5,
        total_voice_attempts := 3, total_sms_attempts := 1,
        total_email_attempts := 0,
        last_interaction_channel := some "voice",
        last_interaction_status := some "no_answer",
        last_interaction_direction := some "outbound",
        last_detected_intent := none, last_sentiment := none,
        hours_since_last_interaction := some 10,
        campaign_goal := none, preferred_channel := none,
        has_phone := true, has_email := false,
        financial_concern_level := "high" } = "active:unreached" := by
  constructor
  · intro inputs
    unfold encode_state context_bucket spec_context_bucket
    cases hl : inputs.additionalSignals with
    | nil => simp
    | cons x xs => simp
  · rfl

/- ─── C6: UCB selection ───────────────────────────────────────────────── -/

/-- Claim C6. For every state and non-empty candidate list, UCB selection
returns a candidate maximizing `value + explorationBonus` (with the bonus
`2·C` at zero visits and `C·sqrt(ln(totalVisits+1)/visitCount)` otherwise,
`C = 1` — the definition of `ucb_score`); ties are broken in favor of the
first candidate encountered (every candidate strictly before the chosen
one scores strictly below it); the returned value is the raw stored value of the chosen
action, not the UCB-augmented score; and selection is a pure
function of the Q-table snapshot, so re-running it yields the identical
(action, value) pair. -/
theorem c6_ucb_selection (t : QTable) (s : String) (l : List String)
    (hne : l ≠ []) :
    (select_action t s (some l)).1 ∈ l ∧
    (∀ b ∈ l, ucb_score t s l b ≤ ucb_score t s l (select_action t s (some l)).1) ∧
    (∃ l₁ l₂, l = l₁ ++ (select_action t s (some l)).1 :: l₂ ∧
      ∀ x ∈ l₁, ucb_score t s l x < ucb_score t s l (select_action t s (some l)).1) ∧
    (select_action t s (some l)).2 =
      exploitation t s (select_action t s (some l)).1 ∧
    select_action t s (some l) = select_action t s (some l) := by
  cases l with
  | nil => exact absurd rfl hne
  | cons a l' =>
    rw [select_action_eq]
    exact ⟨sel_champion_mem _ l' a,
           fun b hb => sel_champion_ub _ l' a b hb,
           sel_champion_first _ l' a, rfl, rfl⟩

/-- Witness for C6 at a concrete snapshot and candidate list. -/
theorem c6_ucb_selection_witness :
    ((["wait", "stop"] : List String) ≠ []) ∧
    ((select_action [] "new:neutral" (some ["wait", "stop"])).1 ∈ ["wait", "stop"] ∧
     (∀ b ∈ ["wait", "stop"], ucb_score [] "new:neutral" ["wait", "stop"] b ≤
        ucb_score [] "new:neutral" ["wait", "stop"]
          (select_action [] "new:neutral" (some ["wait", "stop"])).1) ∧
     (∃ l₁ l₂, ["wait", "stop"] = l₁ ++
        (select_action [] "new:neutral" (some ["wait", "stop"])).1 :: l₂ ∧
        ∀ x ∈ l₁, ucb_score [] "new:neutral" ["wait", "stop"] x <
          ucb_score [] "new:neutral" ["wait", "stop"]
            (select_action [] "new:neutral" (some ["wait", "stop"])).1) ∧
     (select_action [] "new:neutral" (some ["wait", "stop"])).2 =
        exploitation [] "new:neutral"
          (select_action [] "new:neutral" (some ["wait", "stop"])).1 ∧
     select_action [] "new:neutral" (some ["wait", "stop"]) =
        select_action [] "new:neutral" (some ["wait", "stop"])) :=
  ⟨by decide, c6_ucb_selection [] "new:neutral" ["wait", "stop"] (by decide)⟩

/- ─── C8: forced-exploration (corrected) ──────────────────────────────── -/

/-- Helper: in `l₁ ++ b :: l₂` with `b ∉ l₁`, any `a ∉ l₁` with `a ≠ b`
has a strictly larger index than `b`. -/
theorem indexOf_middle_lt {α : Type} [DecidableEq α] (l₁ l₂ : List α)
    (a b : α) (hb : b ∉ l₁) (ha : a ∉ l₁) (hne : a ≠ b) :
    (l₁ ++ b :: l₂).indexOf b < (l₁ ++ b :: l₂).indexOf a := by
  rw [List.indexOf_append_of_not_mem hb, List.indexOf_append_of_not_mem ha,
      List.indexOf_cons_self, List.indexOf_cons_ne _ (fun h => hne h.symm)]
  omega

/-- Claim C8 (amended). A zero-visit candidate `a` is never passed over for a
visited candidate `b` provided: `a` precedes `b` in the candidate list,
the stored value of `b` does not exceed that of `a`, and the exploration bonus of `b` does
not exceed the zero-visit bonus (`ln(totalVisits+1) ≤ 4·visitCount(b)`).
The original claim — with only the bound "both values ≤ 2.0" — is false
(see the counterexample). -/
theorem c8_zero_visit_preference (t : QTable) (s : String) (l : List String)
    (a b : String) (ha : a ∈ l) (hb : b ∈ l)
    (hab : l.indexOf a < l.indexOf b)
    (hva : sel_visits t s a = 0) (hvb : 1 ≤ sel_visits t s b)
    (_hqa : exploitation t s a ≤ 2) (_hqb : exploitation t s b ≤ 2)
    (hle : exploitation t s b ≤ exploitation t s a)
    (hbonus : Real.log ((total_visits t s l : ℝ) + 1) ≤
      4 * (sel_visits t s b : ℝ)) :
    (select_action t s (some l)).1 ≠ b := by
  have hne : a ≠ b := by
    intro h
    rw [h] at hva
    omega
  have hvb0 : sel_visits t s b ≠ 0 := by omega
  cases l with
  | nil => cases ha
  | cons c l' =>
    rw [select_action_eq]
    intro hcontra
    have hch : sel_champion (ucb_score t s (c :: l')) c l' = b := hcontra
    obtain ⟨l₁, l₂, hsplit, hlt⟩ := sel_champion_first (ucb_score t s (c :: l')) l' c
    rw [hch] at hsplit hlt
    have hA : ucb_score t s (c :: l') a = (exploitation t s a : ℝ) + 2 := by
      unfold ucb_score exploration_bonus
      rw [hva]
      norm_num [UCB_C]
    have hB : ucb_score t s (c :: l') b = (exploitation t s b : ℝ) +
        Real.sqrt (Real.log ((total_visits t s (c :: l') : ℝ) + 1) /
          (sel_visits t s b : ℝ)) := by
      unfold ucb_score exploration_bonus
      rw [if_neg hvb0]
      norm_num [UCB_C]
    have hnpos : (0 : ℝ) < (sel_visits t s b : ℝ) := by
      exact_mod_cast Nat.pos_of_ne_zero hvb0
    have hdiv : Real.log ((total_visits t s (c :: l') : ℝ) + 1) /
        (sel_visits t s b : ℝ) ≤ 4 := (div_le_iff₀ hnpos).mpr hbonus
    have hsqrt : Real.sqrt (Real.log ((total_visits t s (c :: l') : ℝ) + 1) /
        (sel_visits t s b : ℝ)) ≤ 2 := by
      calc Real.sqrt (Real.log ((total_visits t s (c :: l') : ℝ) + 1) /
            (sel_visits t s b : ℝ)) ≤ Real.sqrt 4 := Real.sqrt_le_sqrt hdiv
        _ = 2 := by
            rw [show (4 : ℝ) = 2 ^ 2 by norm_num,
                Real.sqrt_sq (by norm_num : (0 : ℝ) ≤ 2)]
    have hcast : (exploitation t s b : ℝ) ≤ (exploitation t s a : ℝ) := by
      exact_mod_cast hle
    have hge : ucb_score t s (c :: l') b ≤ ucb_score t s (c :: l') a := by
      rw [hA, hB]
      linarith
    have hanotin : a ∉ l₁ := fun hmem => absurd (hlt a hmem) (not_lt.mpr hge)
    have hbnotin : b ∉ l₁ := fun hmem => lt_irrefl _ (hlt b hmem)
    have hih := indexOf_middle_lt l₁ l₂ a b hbnotin hanotin hne
    rw [← hsplit] at hih
    omega

/-- Witness for C8 (amended) at a concrete snapshot: `"stop"` has one visit
and value 0, `"wait"` is untried; the untried action is selected. -/
theorem c8_zero_visit_preference_witness :
    Real.log ((total_visits [⟨"s", "stop", 0, 1, 0⟩] "s" ["wait", "stop"] : ℝ) + 1) ≤
      4 * (sel_visits [⟨"s", "stop", 0, 1, 0⟩] "s" "stop" : ℝ) ∧
    (select_action [⟨"s", "stop", 0, 1, 0⟩] "s" (some ["wait", "stop"])).1 ≠ "stop" := by
  have h1 : total_visits [⟨"s", "stop", 0, 1, 0⟩] "s" ["wait", "stop"] = 1 := by decide
  have h2 : sel_visits [⟨"s", "stop", 0, 1, 0⟩] "s" "stop" = 1 := by decide
  have hbonus : Real.log
      ((total_visits [⟨"s", "stop", 0, 1, 0⟩] "s" ["wait", "stop"] : ℝ) + 1) ≤
      4 * (sel_visits [⟨"s", "stop", 0, 1, 0⟩] "s" "stop" : ℝ) := by
    rw [h1, h2]
    have hlog : Real.log 2 ≤ 4 :=
      le_trans (Real.log_le_sub_one_of_pos (by norm_num)) (by norm_num)
    push_cast
    calc Real.log (1 + 1) = Real.log 2 := by norm_num
      _ ≤ 4 := hlog
      _ ≤ 4 * 1 := by norm_num
  exact ⟨hbonus,
    c8_zero_visit_preference [⟨"s", "stop", 0, 1, 0⟩] "s" ["wait", "stop"]
      "wait" "stop" (by decide) (by decide) (by decide) (by decide) (by decide)
      (by decide) (by decide) (by decide) hbonus⟩

/-- Counterexample to C8 as stated: candidate `"wait"` has zero visits and
value 0, candidate `"stop"` has one visit and value 2 — both values are at
most the zero-visit bonus 2.0, `"wait"` precedes `"stop"`, yet UCB selects
`"stop"` (its bonus `sqrt(ln 2) > 0` lifts it above `0 + 2`). -/
theorem c8_claim_counterexample :
    sel_visits [⟨"s", "stop", 2, 1, 0⟩] "s" "wait" = 0 ∧
    1 ≤ sel_visits [⟨"s", "stop", 2, 1, 0⟩] "s" "stop" ∧
    exploitation [⟨"s", "stop", 2, 1, 0⟩] "s" "wait" ≤ 2 ∧
    exploitation [⟨"s", "stop", 2, 1, 0⟩] "s" "stop" ≤ 2 ∧
    (["wait", "stop"] : List String).indexOf "wait" <
      (["wait", "stop"] : List String).indexOf "stop" ∧
    (select_action [⟨"s", "stop", 2, 1, 0⟩] "s" (some ["wait", "stop"])).1 = "stop" := by
  refine ⟨by decide, by decide, by decide, by decide, by decide, ?_⟩
  have hA : ucb_score [⟨"s", "stop", 2, 1, 0⟩] "s" ["wait", "stop"] "wait" = 2 := by
    unfold ucb_score exploration_bonus
    rw [show exploitation [⟨"s", "stop", 2, 1, 0⟩] "s" "wait" = 0 from by decide,
        show sel_visits [⟨"s", "stop", 2, 1, 0⟩] "s" "wait" = 0 from by decide]
    norm_num [UCB_C]
  have hB : ucb_score [⟨"s", "stop", 2, 1, 0⟩] "s" ["wait", "stop"] "stop" =
      2 + Real.sqrt (Real.log 2) := by
    unfold ucb_score exploration_bonus
    rw [show exploitation [⟨"s", "stop", 2, 1, 0⟩] "s" "stop" = 2 from by decide,
        show sel_visits [⟨"s", "stop", 2, 1, 0⟩] "s" "stop" = 1 from by decide,
        show total_visits [⟨"s", "stop", 2, 1, 0⟩] "s" ["wait", "stop"] = 1 from by decide]
    norm_num [UCB_C]
  have hgt : ucb_score [⟨"s", "stop", 2, 1, 0⟩] "s" ["wait", "stop"] "stop" >
      ucb_score [⟨"s", "stop", 2, 1, 0⟩] "s" ["wait", "stop"] "wait" := by
    rw [hA, hB]
    have : 0 < Real.sqrt (Real.log 2) :=
      Real.sqrt_pos.mpr (Real.log_pos (by norm_num))
    linarith
  rw [select_action_eq]
  show sel_champion _ "wait" ["stop"] = "stop"
  rw [sel_champion_cons, if_pos hgt]
  simp [sel_champion]

/- ─── C7: reward and Bellman update ───────────────────────────────────── -/

/-- A stored Q-row found under key (s, a) carries that key. -/
theorem stored_entry_state_action (t : QTable) (s a : String) (x : QValueEntry)
    (h : stored_entry t s a = some x) : x.state = s ∧ x.action = a := by
  unfold stored_entry at h
  have hx : x ∈ t.filter (qkeyed s a) := by
    obtain ⟨hne, heq⟩ := List.mem_getLast?_eq_getLast h
    rw [heq]
    exact List.getLast_mem hne
  have hq := (List.mem_filter.mp hx).2
  unfold qkeyed at hq
  simpa using hq

/-- Mapping a non-empty list to a constant has that constant last. -/
theorem getLast?_map_const {α β : Type} (l : List α) (e : β) (h : l ≠ []) :
    (l.map (fun _ => e)).getLast? = some e := by
  induction l with
  | nil => exact absurd rfl h
  | cons x xs ih =>
    cases xs with
    | nil => rfl
    | cons y ys =>
      simp only [List.map_cons, List.getLast?_cons_cons]
      simpa only [List.map_cons] using ih (by simp)

/-- Saving the updated row leaves each matching row replaced by it. -/
theorem filter_map_replace (s a : String) (e : QValueEntry)
    (he : qkeyed s a e = true) :
    ∀ u : List QValueEntry,
      (u.map fun r => if qkeyed s a r then e else r).filter (qkeyed s a) =
        (u.filter (qkeyed s a)).map (fun _ => e) := by
  intro u
  induction u with
  | nil => simp
  | cons x xs ih =>
    by_cases hx : qkeyed s a x
    · rw [List.map_cons, if_pos hx,
          List.filter_cons_of_pos (by exact he),
          List.filter_cons_of_pos (by exact hx),
          List.map_cons, ih]
    · rw [List.map_cons, if_neg hx,
          List.filter_cons_of_neg (by simpa using hx),
          List.filter_cons_of_neg (by simpa using hx),
          ih]

/-- After `save_entry` with a row keyed (s, a), that row is the stored
entry for (s, a). -/
theorem stored_entry_save (t : QTable) (s a : String) (e : QValueEntry)
    (he : qkeyed s a e = true) :
    stored_entry (save_entry t s a e) s a = some e := by
  unfold save_entry
  by_cases h : (t.filter (qkeyed s a)).isEmpty
  · rw [if_pos h]
    unfold stored_entry
    rw [List.filter_append]
    rw [List.isEmpty_iff] at h
    rw [h, List.nil_append]
    simp [he]
  · rw [if_neg h]
    unfold stored_entry
    rw [filter_map_replace s a e he t]
    rw [List.isEmpty_iff] at h
    exact getLast?_map_const _ e h

/-- Claim C7. A Q-update computes the reward as −1.0 whenever the new status
is "declined", −0.02 on a stalled status, and the fixed transition-table
value (default 0) otherwise; and it writes back the entry for the prior
(state, action) with value `old + 0.1·(reward + 0.9·maxQ(state_after) −
old)` (where `maxQ` is the best stored value in `state_after`, 0 if none),
visit count incremented by exactly one and the reward accrued into the
cumulative total, while logging the matching StateTransition record.
The uniqueness hypothesis mirrors the (state, action) unique schema
constraint, under which the list model coincides with the ORM. -/
theorem c7_reward_and_update (t : QTable) (lead_id : String) (dec_id : Nat)
    (sb a sa statusB statusA : String)
    (_huniq : (t.filter (qkeyed sb a)).length ≤ 1) :
    (∀ x, compute_reward x "declined" = -1) ∧
    (∀ x, x ≠ "declined" → compute_reward x x = -0.02) ∧
    (∀ x y, y ≠ "declined" → x ≠ y →
      compute_reward x y = (TRANSITION_REWARDS.lookup (x, y)).getD 0) ∧
    (stored_entry (update_q_table t lead_id dec_id sb a sa statusB statusA).1 sb a =
      some { state := sb, action := a,
             q_value := ((stored_entry t sb a).getD (fresh_entry sb a)).q_value +
               0.1 * (compute_reward statusB statusA +
                 0.9 * get_max_q t sa -
                 ((stored_entry t sb a).getD (fresh_entry sb a)).q_value),
             visit_count :=
               ((stored_entry t sb a).getD (fresh_entry sb a)).visit_count + 1,
             total_reward :=
               ((stored_entry t sb a).getD (fresh_entry sb a)).total_reward +
                 compute_reward statusB statusA }) ∧
    ((update_q_table t lead_id dec_id sb a sa statusB statusA).2 =
      { lead_id := lead_id, nba_decision_id := dec_id, state_before := sb,
        action_taken := a, state_after := sa,
        reward := compute_reward statusB statusA,
        q_value_before := ((stored_entry t sb a).getD (fresh_entry sb a)).q_value,
        q_value_after := ((stored_entry t sb a).getD (fresh_entry sb a)).q_value +
          0.1 * (compute_reward statusB statusA + 0.9 * get_max_q t sa -
            ((stored_entry t sb a).getD (fresh_entry sb a)).q_value) }) := by
  have hold : ((stored_entry t sb a).getD (fresh_entry sb a)).state = sb ∧
      ((stored_entry t sb a).getD (fresh_entry sb a)).action = a := by
    cases hst : stored_entry t sb a with
    | none => simp [fresh_entry]
    | some x =>
      have := stored_entry_state_action t sb a x hst
      simpa using this
  have hA : ALPHA = (0.1 : ℚ) := rfl
  have hG : GAMMA = (0.9 : ℚ) := rfl
  refine ⟨?_, ?_, ?_, ?_, ?_⟩
  · intro x
    simp [compute_reward, DECLINED_REWARD]
    norm_num
  · intro x hx
    simp [compute_reward, hx, STALL_REWARD]
  · intro x y hy hxy
    simp [compute_reward, hy, hxy]
  · simp only [update_q_table]
    have hqk : qkeyed sb a
        { state := ((stored_entry t sb a).getD (fresh_entry sb a)).state,
          action := ((stored_entry t sb a).getD (fresh_entry sb a)).action,
          q_value := ((stored_entry t sb a).getD (fresh_entry sb a)).q_value +
            ALPHA * (compute_reward statusB statusA + GAMMA * get_max_q t sa -
              ((stored_entry t sb a).getD (fresh_entry sb a)).q_value),
          visit_count :=
            ((stored_entry t sb a).getD (fresh_entry sb a)).visit_count + 1,
          total_reward :=
            ((stored_entry t sb a).getD (fresh_entry sb a)).total_reward +
              compute_reward statusB statusA } = true := by
      unfold qkeyed
      simp [hold.1, hold.2]
    rw [stored_entry_save t sb a _ hqk]
    refine congrArg some ?_
    rw [hA, hG, hold.1, hold.2]
  · simp only [update_q_table]
    rw [hA, hG]

/-- Witness for C7 on an empty table: the first update of
(state "new:neutral", action "wait") for a new→contacted transition. -/
theorem c7_reward_and_update_witness :
    ((([] : QTable).filter (qkeyed "new:neutral" "wait")).length ≤ 1) ∧
    ((∀ x, compute_reward x "declined" = -1) ∧
     (∀ x, x ≠ "declined" → compute_reward x x = -0.02) ∧
     (∀ x y, y ≠ "declined" → x ≠ y →
       compute_reward x y = (TRANSITION_REWARDS.lookup (x, y)).getD 0) ∧
     (stored_entry (update_q_table [] "L" 0 "new:neutral" "wait"
         "contacted:neutral" "new" "contacted").1 "new:neutral" "wait" =
       some { state := "new:neutral", action := "wait",
              q_value := ((stored_entry [] "new:neutral" "wait").getD
                  (fresh_entry "new:neutral" "wait")).q_value +
                0.1 * (compute_reward "new" "contacted" +
                  0.9 * get_max_q [] "contacted:neutral" -
                  ((stored_entry [] "new:neutral" "wait").getD
                    (fresh_entry "new:neutral" "wait")).q_value),
              visit_count := ((stored_entry [] "new:neutral" "wait").getD
                  (fresh_entry "new:neutral" "wait")).visit_count + 1,
              total_reward := ((stored_entry [] "new:neutral" "wait").getD
                  (fresh_entry "new:neutral" "wait")).total_reward +
                compute_reward "new" "contacted" }) ∧
     ((update_q_table [] "L" 0 "new:neutral" "wait"
         "contacted:neutral" "new" "contacted").2 =
       { lead_id := "L", nba_decision_id := 0, state_before := "new:neutral",
         action_taken := "wait", state_after := "contacted:neutral",
         reward := compute_reward "new" "contacted",
         q_value_before := ((stored_entry [] "new:neutral" "wait").getD
           (fresh_entry "new:neutral" "wait")).q_value,
         q_value_after := ((stored_entry [] "new:neutral" "wait").getD
             (fresh_entry "new:neutral" "wait")).q_value +
           0.1 * (compute_reward "new" "contacted" +
             0.9 * get_max_q [] "contacted:neutral" -
             ((stored_entry [] "new:neutral" "wait").getD
               (fresh_entry "new:neutral" "wait")).q_value) })) :=
  ⟨by decide,
   c7_reward_and_update [] "L" 0 "new:neutral" "wait" "contacted:neutral"
     "new" "contacted" (by decide)⟩

/- ─── C10: no funnel regression (corrected) ───────────────────────────── -/

/-- On the acquisition path, the proposed status is one of four fixed
statuses or the current one. -/
theorem intent_to_status_cases (c intent : String) :
    intent_to_status c intent = "interested" ∨ intent_to_status c intent = "trial" ∨
    intent_to_status c intent = "contacted" ∨ intent_to_status c intent = "declined" ∨
    intent_to_status c intent = c := by
  unfold intent_to_status
  repeat' split
  all_goals simp

/-- Counterexample to C10 as stated: from "enrolled" (included in the
acquisition chain of the claim) the code takes the retention path, and a
"declining" intent derives "inactive" — neither a terminal status nor a
member of the acquisition chain. -/
theorem c10_claim_counterexample :
    derive_lead_status "enrolled" "declining" "completed" = "inactive" ∧
    "inactive" ∉ acquisition_order ∧
    "inactive" ≠ "declined" ∧ "inactive" ≠ "unresponsive" := by
  decide

/-- Claim C10 (amended). For every current status in {new, contacted,
interested, trial} (the pre-enrollment part of the acquisition chain —
"enrolled" is routed through the retention path and may derive
active/at_risk/inactive), the derived status is terminal ("declined" or
"unresponsive") or sits at a position ≥ the current one in the chain; and
an interaction status of "opted_out" always derives "declined". -/
theorem c10_no_funnel_regression (current intent istatus : String)
    (hcur : current = "new" ∨ current = "contacted" ∨ current = "interested" ∨
            current = "trial") :
    (derive_lead_status current intent istatus = "declined" ∨
     derive_lead_status current intent istatus = "unresponsive" ∨
     (derive_lead_status current intent istatus ∈ acquisition_order ∧
      acquisition_order.indexOf current ≤
        acquisition_order.indexOf (derive_lead_status current intent istatus))) ∧
    (∀ c i, derive_lead_status c i "opted_out" = "declined") := by
  refine ⟨?_, fun c i => by simp [derive_lead_status]⟩
  by_cases hop : istatus = "opted_out"
  · left; simp [derive_lead_status, hop]
  · have hp := intent_to_status_cases current intent
    rcases hcur with rfl | rfl | rfl | rfl
    all_goals (
      simp only [derive_lead_status, hop, if_false]
      rw [if_neg (by decide)]
      rcases hp with h | h | h | h | h <;> rw [h] <;> decide)

/-- Witness for C10 (amended) at a concrete trial-status lead. -/
theorem c10_no_funnel_regression_witness :
    (("trial" : String) = "new" ∨ ("trial" : String) = "contacted" ∨
     ("trial" : String) = "interested" ∨ ("trial" : String) = "trial") ∧
    ((derive_lead_status "trial" "attending" "completed" = "declined" ∨
      derive_lead_status "trial" "attending" "completed" = "unresponsive" ∨
      (derive_lead_status "trial" "attending" "completed" ∈ acquisition_order ∧
       acquisition_order.indexOf "trial" ≤
         acquisition_order.indexOf (derive_lead_status "trial" "attending" "completed"))) ∧
     (∀ c i, derive_lead_status c i "opted_out" = "declined")) :=
  ⟨by decide,
   c10_no_funnel_regression "trial" "attending" "completed" (by decide)⟩

/- ─── C9: SMS batcher flush triggers ──────────────────────────────────── -/

/-- A min-fold is bounded by its seed. -/
theorem foldl_min_le_self : ∀ (xs : List ℚ) (a : ℚ), xs.foldl min a ≤ a := by
  intro xs
  induction xs with
  | nil => intro a; exact le_refl a
  | cons y ys ih =>
    intro a
    exact le_trans (ih (min a y)) (min_le_left a y)

/-- A min-fold is bounded by every list element. -/
theorem foldl_min_le_mem : ∀ (xs : List ℚ) (a x : ℚ), x ∈ xs →
    xs.foldl min a ≤ x := by
  intro xs
  induction xs with
  | nil => intro a x hx; cases hx
  | cons y ys ih =>
    intro a x hx
    rcases List.mem_cons.mp hx with h1 | h1
    · rw [h1]
      exact le_trans (foldl_min_le_self ys (min a y)) (min_le_right a y)
    · exact ih (min a y) x h1

/-- A min-fold is the seed or a list element. -/
theorem foldl_min_mem : ∀ (xs : List ℚ) (a : ℚ), xs.foldl min a ∈ a :: xs := by
  intro xs
  induction xs with
  | nil => intro a; exact List.mem_cons_self a []
  | cons y ys ih =>
    intro a
    rcases List.mem_cons.mp (ih (min a y)) with h1 | h1
    · rcases min_choice a y with h2 | h2
      · rw [List.foldl_cons, h1, h2]; exact List.mem_cons_self a (y :: ys)
      · rw [List.foldl_cons, h1, h2]
        exact List.mem_cons_of_mem a (List.mem_cons_self y ys)
    · exact List.mem_cons_of_mem a (List.mem_cons_of_mem y h1)

/-- A max-fold dominates its seed. -/
theorem le_foldl_max_self : ∀ (xs : List ℚ) (a : ℚ), a ≤ xs.foldl max a := by
  intro xs
  induction xs with
  | nil => intro a; exact le_refl a
  | cons y ys ih =>
    intro a
    exact le_trans (le_max_left a y) (ih (max a y))

/-- A max-fold dominates every list element. -/
theorem le_foldl_max_mem : ∀ (xs : List ℚ) (a x : ℚ), x ∈ xs →
    x ≤ xs.foldl max a := by
  intro xs
  induction xs with
  | nil => intro a x hx; cases hx
  | cons y ys ih =>
    intro a x hx
    rcases List.mem_cons.mp hx with h1 | h1
    · rw [h1]
      exact le_trans (le_max_right a y) (le_foldl_max_self ys (max a y))
    · exact ih (max a y) x h1

/-- A max-fold is the seed or a list element. -/
theorem foldl_max_mem : ∀ (xs : List ℚ) (a : ℚ), xs.foldl max a ∈ a :: xs := by
  intro xs
  induction xs with
  | nil => intro a; exact List.mem_cons_self a []
  | cons y ys ih =>
    intro a
    rcases List.mem_cons.mp (ih (max a y)) with h1 | h1
    · rcases max_choice a y with h2 | h2
      · rw [List.foldl_cons, h1, h2]; exact List.mem_cons_self a (y :: ys)
      · rw [List.foldl_cons, h1, h2]
        exact List.mem_cons_of_mem a (List.mem_cons_self y ys)
    · exact List.mem_cons_of_mem a (List.mem_cons_of_mem y h1)

/-- The stored minimum is below a bound iff some element is. -/
theorem min?_getD_le_iff (l : List ℚ) (h : l ≠ []) (c : ℚ) :
    l.min?.getD 0 ≤ c ↔ ∃ m ∈ l, m ≤ c := by
  cases l with
  | nil => exact absurd rfl h
  | cons a xs =>
    rw [List.min?_cons', Option.getD_some]
    constructor
    · intro hle
      exact ⟨xs.foldl min a, foldl_min_mem xs a, hle⟩
    · rintro ⟨m, hm, hmc⟩
      rcases List.mem_cons.mp hm with h1 | h1
      · rw [h1] at hmc
        exact le_trans (foldl_min_le_self xs a) hmc
      · exact le_trans (foldl_min_le_mem xs a m h1) hmc

/-- The stored maximum is below a bound iff every element is. -/
theorem max?_getD_le_iff (l : List ℚ) (h : l ≠ []) (c : ℚ) :
    l.max?.getD 0 ≤ c ↔ ∀ m ∈ l, m ≤ c := by
  cases l with
  | nil => exact absurd rfl h
  | cons a xs =>
    rw [List.max?_cons', Option.getD_some]
    constructor
    · intro hle m hm
      rcases List.mem_cons.mp hm with h1 | h1
      · exact le_trans (by rw [h1]; exact le_foldl_max_self xs a) hle
      · exact le_trans (le_foldl_max_mem xs a m h1) hle
    · intro hall
      rcases List.mem_cons.mp (foldl_max_mem xs a) with h1 | h1
      · rw [h1]; exact hall a (List.mem_cons_self a xs)
      · exact hall _ (List.mem_cons_of_mem a h1)

/-- After marking every pending row of a lead flushed, the lead has no
pending rows. -/
theorem pending_after_flush_mark (l : List BufMsg) (lead_id : String) :
    pending_msgs (l.map (fun m =>
      if m.lead_id = lead_id ∧ m.flushed = false
      then { m with flushed := true } else m)) lead_id = [] := by
  induction l with
  | nil => rfl
  | cons x xs ih =>
    unfold pending_msgs at ih ⊢
    rw [List.map_cons]
    by_cases hx : x.lead_id = lead_id ∧ x.flushed = false
    · rw [if_pos hx, List.filter_cons_of_neg (by simp)]
      exact ih
    · rw [if_neg hx, List.filter_cons_of_neg (by simpa using hx)]
      exact ih

/-- Claim C9. With pending unflushed messages, the flush check flushes
exactly when the pending count has reached 6, or some pending message
(i.e. the oldest) is at least 15 minutes old, or every pending message
(i.e. the newest) is at least 5 minutes old — otherwise it reschedules
itself and leaves the buffer untouched; an arriving urgent-scan-positive
message triggers an immediate synchronous flush regardless of buffer
size (afterwards nothing is pending); and a flush check with zero
pending messages performs no flush. -/
theorem c9_sms_flush_triggers (buf : List BufMsg) (lead_id : String) (now : ℚ)
    (direction body interaction_id : String) (received_at : ℚ)
    (hne : pending_msgs buf lead_id ≠ []) :
    ((check_sms_flush buf lead_id now).2 =
        .flushedNow (pending_msgs buf lead_id).length ↔
      ((pending_msgs buf lead_id).length ≥ MAX_BUFFERED_MESSAGES ∨
       (∃ m ∈ pending_msgs buf lead_id, now - m.received_at ≥ MAX_ACCUMULATION) ∨
       (∀ m ∈ pending_msgs buf lead_id, now - m.received_at ≥ QUIET_PERIOD))) ∧
    (¬ ((pending_msgs buf lead_id).length ≥ MAX_BUFFERED_MESSAGES ∨
        (∃ m ∈ pending_msgs buf lead_id, now - m.received_at ≥ MAX_ACCUMULATION) ∨
        (∀ m ∈ pending_msgs buf lead_id, now - m.received_at ≥ QUIET_PERIOD)) →
      check_sms_flush buf lead_id now = (buf, .rescheduled)) ∧
    ((sms_message_post buf lead_id direction body interaction_id
        received_at true).2 = true ∧
     pending_msgs (sms_message_post buf lead_id direction body interaction_id
        received_at true).1 lead_id = []) ∧
    (∀ b : List BufMsg, pending_msgs b lead_id = [] →
      check_sms_flush b lead_id now = (b, .noPending)) := by
  have hmapne : (pending_msgs buf lead_id).map (fun m => m.received_at) ≠ [] := by
    intro hc
    exact hne (List.map_eq_nil_iff.mp hc)
  have hold_iff : MAX_ACCUMULATION ≤ now -
      ((pending_msgs buf lead_id).map (fun m => m.received_at)).min?.getD 0 ↔
      ∃ m ∈ pending_msgs buf lead_id, now - m.received_at ≥ MAX_ACCUMULATION := by
    constructor
    · intro h
      have h2 : ((pending_msgs buf lead_id).map (fun m => m.received_at)).min?.getD 0 ≤
          now - MAX_ACCUMULATION := by linarith
      obtain ⟨v, hv, hvc⟩ := (min?_getD_le_iff _ hmapne _).mp h2
      obtain ⟨m, hm, hrfl⟩ := List.mem_map.mp hv
      exact ⟨m, hm, by rw [ge_iff_le]; rw [← hrfl] at hvc; linarith⟩
    · rintro ⟨m, hm, hmc⟩
      have h2 : ((pending_msgs buf lead_id).map (fun m => m.received_at)).min?.getD 0 ≤
          now - MAX_ACCUMULATION :=
        (min?_getD_le_iff _ hmapne _).mpr
          ⟨m.received_at, List.mem_map_of_mem _ hm, by linarith⟩
      linarith
  have hnew_iff : QUIET_PERIOD ≤ now -
      ((pending_msgs buf lead_id).map (fun m => m.received_at)).max?.getD 0 ↔
      ∀ m ∈ pending_msgs buf lead_id, now - m.received_at ≥ QUIET_PERIOD := by
    constructor
    · intro h m hm
      have h2 : ((pending_msgs buf lead_id).map (fun m => m.received_at)).max?.getD 0 ≤
          now - QUIET_PERIOD := by linarith
      have := (max?_getD_le_iff _ hmapne _).mp h2 m.received_at
        (List.mem_map_of_mem _ hm)
      rw [ge_iff_le]
      linarith
    · intro hall
      have h2 : ((pending_msgs buf lead_id).map (fun m => m.received_at)).max?.getD 0 ≤
          now - QUIET_PERIOD := by
        refine (max?_getD_le_iff _ hmapne _).mpr ?_
        intro v hv
        obtain ⟨m, hm, hrfl⟩ := List.mem_map.mp hv
        have := hall m hm
        rw [← hrfl]
        linarith
      linarith
  have hcount0 : ¬ (pending_msgs buf lead_id).length = 0 := by
    intro hc
    exact hne (List.length_eq_zero.mp hc)
  have hcond_iff :
      ((pending_msgs buf lead_id).length ≥ MAX_BUFFERED_MESSAGES ∨
        now - ((pending_msgs buf lead_id).map (fun m => m.received_at)).min?.getD 0
          ≥ MAX_ACCUMULATION ∨
        now - ((pending_msgs buf lead_id).map (fun m => m.received_at)).max?.getD 0
          ≥ QUIET_PERIOD) ↔
      ((pending_msgs buf lead_id).length ≥ MAX_BUFFERED_MESSAGES ∨
        (∃ m ∈ pending_msgs buf lead_id, now - m.received_at ≥ MAX_ACCUMULATION) ∨
        (∀ m ∈ pending_msgs buf lead_id, now - m.received_at ≥ QUIET_PERIOD)) :=
    or_congr Iff.rfl (or_congr hold_iff hnew_iff)
  have hck : check_sms_flush buf lead_id now =
      if ((pending_msgs buf lead_id).length ≥ MAX_BUFFERED_MESSAGES ∨
          now - ((pending_msgs buf lead_id).map (fun m => m.received_at)).min?.getD 0
            ≥ MAX_ACCUMULATION ∨
          now - ((pending_msgs buf lead_id).map (fun m => m.received_at)).max?.getD 0
            ≥ QUIET_PERIOD)
      then ((flush_sms_thread buf lead_id).1,
            .flushedNow (pending_msgs buf lead_id).length)
      else (buf, .rescheduled) := by
    simp only [check_sms_flush]
    rw [if_neg hcount0]
  refine ⟨?_, ?_, ⟨rfl, ?_⟩, ?_⟩
  · by_cases hsf : ((pending_msgs buf lead_id).length ≥ MAX_BUFFERED_MESSAGES ∨
        now - ((pending_msgs buf lead_id).map (fun m => m.received_at)).min?.getD 0
          ≥ MAX_ACCUMULATION ∨
        now - ((pending_msgs buf lead_id).map (fun m => m.received_at)).max?.getD 0
          ≥ QUIET_PERIOD)
    · rw [hck, if_pos hsf]
      exact ⟨fun _ => hcond_iff.mp hsf, fun _ => rfl⟩
    · rw [hck, if_neg hsf]
      constructor
      · intro hcontra
        cases hcontra
      · intro hspec
        exact absurd (hcond_iff.mpr hspec) hsf
  · intro hnot
    rw [hck, if_neg (fun hsf => hnot (hcond_iff.mp hsf))]
  · show pending_msgs (flush_sms_thread (buf ++ [_]) lead_id).1 lead_id = []
    unfold flush_sms_thread
    have hpend : pending_msgs (buf ++
        [{ lead_id := lead_id, direction := direction, body := body,
           received_at := received_at, is_urgent := true, flushed := false,
           interaction_id := some interaction_id }]) lead_id =
        pending_msgs buf lead_id ++
        [{ lead_id := lead_id, direction := direction, body := body,
           received_at := received_at, is_urgent := true, flushed := false,
           interaction_id := some interaction_id }] := by
      unfold pending_msgs
      rw [List.filter_append]
      congr 1
      simp
    rw [hpend]
    simp only [List.getLast?_concat]
    exact pending_after_flush_mark _ lead_id
  · intro b hb
    simp only [check_sms_flush]
    rw [if_pos (by rw [hb]; rfl)]

/-- Witness for C9: one pending message, 10 minutes old, at a concrete
clock. -/
theorem c9_sms_flush_triggers_witness :
    (pending_msgs [⟨"L", "inbound", "hi", 0, false, false, some "i1"⟩] "L" ≠ []) ∧
    (((check_sms_flush [⟨"L", "inbound", "hi", 0, false, false, some "i1"⟩] "L" 10).2 =
        .flushedNow (pending_msgs
          [⟨"L", "inbound", "hi", 0, false, false, some "i1"⟩] "L").length ↔
      ((pending_msgs [⟨"L", "inbound", "hi", 0, false, false, some "i1"⟩] "L").length ≥
          MAX_BUFFERED_MESSAGES ∨
       (∃ m ∈ pending_msgs [⟨"L", "inbound", "hi", 0, false, false, some "i1"⟩] "L",
          (10 : ℚ) - m.received_at ≥ MAX_ACCUMULATION) ∨
       (∀ m ∈ pending_msgs [⟨"L", "inbound", "hi", 0, false, false, some "i1"⟩] "L",
          (10 : ℚ) - m.received_at ≥ QUIET_PERIOD))) ∧
     (¬ ((pending_msgs [⟨"L", "inbound", "hi", 0, false, false, some "i1"⟩] "L").length ≥
            MAX_BUFFERED_MESSAGES ∨
         (∃ m ∈ pending_msgs [⟨"L", "inbound", "hi", 0, false, false, some "i1"⟩] "L",
            (10 : ℚ) - m.received_at ≥ MAX_ACCUMULATION) ∨
         (∀ m ∈ pending_msgs [⟨"L", "inbound", "hi", 0, false, false, some "i1"⟩] "L",
            (10 : ℚ) - m.received_at ≥ QUIET_PERIOD)) →
       check_sms_flush [⟨"L", "inbound", "hi", 0, false, false, some "i1"⟩] "L" 10 =
         ([⟨"L", "inbound", "hi", 0, false, false, some "i1"⟩], .rescheduled)) ∧
     ((sms_message_post [⟨"L", "inbound", "hi", 0, false, false, some "i1"⟩] "L"
         "inbound" "sign me up" "i2" 10 true).2 = true ∧
      pending_msgs (sms_message_post
         [⟨"L", "inbound", "hi", 0, false, false, some "i1"⟩] "L"
         "inbound" "sign me up" "i2" 10 true).1 "L" = []) ∧
     (∀ b : List BufMsg, pending_msgs b "L" = [] →
       check_sms_flush b "L" 10 = (b, .noPending))) :=
  ⟨by decide,
   c9_sms_flush_triggers [⟨"L", "inbound", "hi", 0, false, false, some "i1"⟩]
     "L" 10 "inbound" "sign me up" "i2" 10 (by decide)⟩

/- ─── C4: enriched-context merging (corrected) ────────────────────────── -/

/-- Counterexample to C4 as stated: a lead records financial concern
"high", then a later interaction records "low".  The loaded
financial_concern_level is "low" — not the historical maximum "high" —
because `_load_enriched_context` reads only `is_current` artifacts and
`_create_artifact` marks the previous one non-current.  Likewise an
objection topic ("distance") raised earlier is dropped once a later
objections artifact supersedes it. -/
theorem c4_claim_counterexample :
    (load_enriched_context
      (create_artifact (create_artifact [] "L" (some "i1") "financial_signals"
          (.financial "high" []))
        "L" (some "i2") "financial_signals" (.financial "low" []))
      "L").financial_concern_level = "low" ∧
    (ArtifactContent.financial "high" []) ∈
      ((create_artifact (create_artifact [] "L" (some "i1") "financial_signals"
          (.financial "high" []))
        "L" (some "i2") "financial_signals" (.financial "low" [])).map
        (fun a => a.content)) ∧
    concern_level_order "low" < concern_level_order "high" ∧
    (load_enriched_context
      (create_artifact (create_artifact [] "L" (some "i1") "objections"
          (.objections [⟨some "distance"⟩]))
        "L" (some "i2") "objections" (.objections [⟨some "safety"⟩]))
      "L").objection_topics = ["safety"] := by
  decide

/-- Embeds `enrich_step` touches the financial level only on financial artifacts. -/
theorem enrich_step_financial_of_ne (acc : EnrichedContext) (a : Artifact)
    (h : a.artifact_type ≠ "financial_signals") :
    (enrich_step acc a).financial_concern_level = acc.financial_concern_level := by
  unfold enrich_step
  split <;> (repeat' split) <;> simp_all

/-- Embeds `enrich_step` touches the objection fields only on objections
artifacts. -/
theorem enrich_step_objections_of_ne (acc : EnrichedContext) (a : Artifact)
    (h : a.artifact_type ≠ "objections") :
    (enrich_step acc a).objection_topics = acc.objection_topics ∧
    (enrich_step acc a).has_unaddressed_objections =
      acc.has_unaddressed_objections := by
  unfold enrich_step
  split <;> (repeat' split) <;> simp_all

/-- Folding over non-financial artifacts leaves the financial level. -/
theorem foldl_enrich_financial (l : List Artifact) :
    ∀ acc : EnrichedContext, (∀ a ∈ l, a.artifact_type ≠ "financial_signals") →
    (l.foldl enrich_step acc).financial_concern_level =
      acc.financial_concern_level := by
  induction l with
  | nil => intro acc _; rfl
  | cons x xs ih =>
    intro acc hall
    rw [List.foldl_cons]
    rw [ih (enrich_step acc x) (fun a ha => hall a (List.mem_cons_of_mem x ha))]
    exact enrich_step_financial_of_ne acc x (hall x (List.mem_cons_self x xs))

/-- Folding over non-objections artifacts leaves the objection fields. -/
theorem foldl_enrich_objections (l : List Artifact) :
    ∀ acc : EnrichedContext, (∀ a ∈ l, a.artifact_type ≠ "objections") →
    (l.foldl enrich_step acc).objection_topics = acc.objection_topics ∧
    (l.foldl enrich_step acc).has_unaddressed_objections =
      acc.has_unaddressed_objections := by
  induction l with
  | nil => intro acc _; exact ⟨rfl, rfl⟩
  | cons x xs ih =>
    intro acc hall
    rw [List.foldl_cons]
    obtain ⟨h1, h2⟩ := ih (enrich_step acc x)
      (fun a ha => hall a (List.mem_cons_of_mem x ha))
    obtain ⟨h3, h4⟩ :=
      enrich_step_objections_of_ne acc x (hall x (List.mem_cons_self x xs))
    exact ⟨h1.trans h3, h2.trans h4⟩

/-- If at most one element satisfies `p` and `f` makes it fail `p`, then
after `update_first` nothing satisfies `p`. -/
theorem filter_update_first_nil {α : Type} (p : α → Bool) (f : α → α)
    (hf : ∀ a, p a = true → p (f a) = false) :
    ∀ m : List α, (m.filter p).length ≤ 1 → (update_first p f m).filter p = [] := by
  intro m
  induction m with
  | nil => intro _; rfl
  | cons x xs ih =>
    intro hlen
    unfold update_first
    by_cases hx : p x
    · rw [if_pos hx, List.filter_cons_of_neg (by simp [hf x hx])]
      rw [List.filter_cons_of_pos hx] at hlen
      have : (xs.filter p).length = 0 := by
        simp only [List.length_cons] at hlen
        omega
      exact List.length_eq_zero.mp this
    · rw [if_neg hx, List.filter_cons_of_neg (by simpa using hx)]
      rw [List.filter_cons_of_neg (by simpa using hx)] at hlen
      exact ih hlen

/-- Same for `update_last`. -/
theorem filter_update_last_nil {α : Type} (p : α → Bool) (f : α → α)
    (hf : ∀ a, p a = true → p (f a) = false)
    (m : List α) (hlen : (m.filter p).length ≤ 1) :
    (update_last p f m).filter p = [] := by
  unfold update_last
  rw [List.filter_reverse]
  have h2 : ((m.reverse).filter p).length ≤ 1 := by
    rw [List.filter_reverse, List.length_reverse]
    exact hlen
  rw [filter_update_first_nil p f hf m.reverse h2]
  rfl

/-- After creating an artifact, the current artifacts of the lead (newest
first) start with the new artifact, and no other current artifact of the
lead has the created type (given the ≤1-current-per-type invariant the
creation path maintains). -/
theorem create_artifact_current_filter (store : List Artifact)
    (lead_id iid ty : String) (c : ArtifactContent)
    (hlen : (store.filter (fun a => a.lead_id = lead_id ∧
      a.artifact_type = ty ∧ a.is_current)).length ≤ 1) :
    ∃ (v : Nat) (rest : List Artifact),
      ((create_artifact store lead_id (some iid) ty c).filter
        (fun a => a.lead_id = lead_id ∧ a.is_current)).reverse =
        { lead_id := lead_id, interaction_id := some iid, artifact_type := ty,
          content := c, version := v, is_current := true } :: rest ∧
      ∀ a ∈ rest, a.artifact_type ≠ ty := by
  have hmark : ∀ a : Artifact,
      (decide (a.lead_id = lead_id ∧ a.artifact_type = ty ∧ a.is_current)) = true →
      (decide (({ a with is_current := false } : Artifact).lead_id = lead_id ∧
        ({ a with is_current := false } : Artifact).artifact_type = ty ∧
        ({ a with is_current := false } : Artifact).is_current)) = false := by
    intro a _
    simp
  simp only [create_artifact]
  cases hex : (store.filter (fun a => a.lead_id = lead_id ∧
      a.artifact_type = ty ∧ a.is_current)).getLast? with
  | none =>
    have hnil : store.filter (fun a => a.lead_id = lead_id ∧
        a.artifact_type = ty ∧ a.is_current) = [] :=
      List.getLast?_eq_none_iff.mp hex
    refine ⟨1, (store.filter (fun a => a.lead_id = lead_id ∧ a.is_current)).reverse,
      ?_, ?_⟩
    · rw [List.filter_append, List.reverse_append]
      simp
    · intro a ha hty
      rw [List.mem_reverse] at ha
      have hq := (List.mem_filter.mp ha).2
      have : a ∈ store.filter (fun a => a.lead_id = lead_id ∧
          a.artifact_type = ty ∧ a.is_current) := by
        refine List.mem_filter.mpr ⟨(List.mem_filter.mp ha).1, ?_⟩
        simp only [decide_eq_true_eq] at hq ⊢
        exact ⟨hq.1, hty, hq.2⟩
      rw [hnil] at this
      cases this
  | some e =>
    have hnil : (update_last (fun a => a.lead_id = lead_id ∧
        a.artifact_type = ty ∧ a.is_current)
        (fun a => { a with is_current := false }) store).filter
        (fun a => a.lead_id = lead_id ∧ a.artifact_type = ty ∧ a.is_current) = [] :=
      filter_update_last_nil _ _ hmark store hlen
    refine ⟨e.version + 1,
      ((update_last (fun a => a.lead_id = lead_id ∧
          a.artifact_type = ty ∧ a.is_current)
        (fun a => { a with is_current := false }) store).filter
        (fun a => a.lead_id = lead_id ∧ a.is_current)).reverse, ?_, ?_⟩
    · rw [List.filter_append, List.reverse_append]
      simp
    · intro a ha hty
      rw [List.mem_reverse] at ha
      have hq := (List.mem_filter.mp ha).2
      have : a ∈ (update_last (fun a => a.lead_id = lead_id ∧
          a.artifact_type = ty ∧ a.is_current)
          (fun a => { a with is_current := false }) store).filter
          (fun a => a.lead_id = lead_id ∧ a.artifact_type = ty ∧ a.is_current) := by
        refine List.mem_filter.mpr ⟨(List.mem_filter.mp ha).1, ?_⟩
        simp only [decide_eq_true_eq] at hq ⊢
        exact ⟨hq.1, hty, hq.2⟩
      rw [hnil] at this
      cases this

/-- Embeds `enrich_step` on a financial artifact takes the max-by-rank branch. -/
theorem enrich_step_financial_hit (acc : EnrichedContext) (a : Artifact)
    (lvl : String) (ms : List String)
    (hty : a.artifact_type = "financial_signals")
    (hct : a.content = .financial lvl ms) :
    enrich_step acc a =
      if concern_level_order lvl > concern_level_order acc.financial_concern_level
      then { acc with financial_concern_level := lvl } else acc := by
  unfold enrich_step
  split <;> simp_all

/-- Embeds `enrich_step` on an objections artifact unions the topics and raises
the flag when the list is non-empty. -/
theorem enrich_step_objections_hit (acc : EnrichedContext) (a : Artifact)
    (items : List ObjectionItem)
    (hty : a.artifact_type = "objections")
    (hct : a.content = .objections items) :
    enrich_step acc a =
      { acc with
        objection_topics := items.foldl
          (fun ts o => add_topic ts (o.topic.getD "unknown")) acc.objection_topics,
        has_unaddressed_objections :=
          if ¬ items.isEmpty then true else acc.has_unaddressed_objections } := by
  unfold enrich_step
  split <;> simp_all

/-- Claim C4 (amended). PolicyInputs merges only the *current*
artifacts, and `_create_artifact` supersedes the previous current artifact
of the same type — so (under the ≤1-current-per-type invariant that the
creation path maintains) the loaded financial_concern_level equals the
level of the latest financial artifact (when of positive rank), and the loaded
objection topics are exactly those of the latest objections
deduplicated topics; superseded history is not merged. -/
theorem c4_enriched_merge (store : List Artifact) (lead_id iid lvl : String)
    (ms : List String) (items : List ObjectionItem)
    (hfin : (store.filter (fun a => a.lead_id = lead_id ∧
      a.artifact_type = "financial_signals" ∧ a.is_current)).length ≤ 1)
    (hobj : (store.filter (fun a => a.lead_id = lead_id ∧
      a.artifact_type = "objections" ∧ a.is_current)).length ≤ 1)
    (hrank : 0 < concern_level_order lvl)
    (hitems : items ≠ []) :
    (load_enriched_context (create_artifact store lead_id (some iid)
      "financial_signals" (.financial lvl ms)) lead_id).financial_concern_level
        = lvl ∧
    (load_enriched_context (create_artifact store lead_id (some iid)
      "objections" (.objections items)) lead_id).objection_topics =
        items.foldl (fun ts o => add_topic ts (o.topic.getD "unknown")) [] ∧
    (load_enriched_context (create_artifact store lead_id (some iid)
      "objections" (.objections items)) lead_id).has_unaddressed_objections
        = true := by
  obtain ⟨vf, restf, hsplitf, hnof⟩ := create_artifact_current_filter store
    lead_id iid "financial_signals" (.financial lvl ms) hfin
  obtain ⟨vo, resto, hsplito, hnoo⟩ := create_artifact_current_filter store
    lead_id iid "objections" (.objections items) hobj
  refine ⟨?_, ?_, ?_⟩
  · unfold load_enriched_context
    rw [hsplitf, List.foldl_cons]
    rw [foldl_enrich_financial restf _ hnof]
    rw [enrich_step_financial_hit _ _ lvl ms rfl rfl]
    rw [if_pos (by
      have h0 : concern_level_order
          (({} : EnrichedContext).financial_concern_level) = 0 := rfl
      rw [gt_iff_lt, h0]
      exact hrank)]
  · unfold load_enriched_context
    rw [hsplito, List.foldl_cons]
    rw [(foldl_enrich_objections resto _ hnoo).1]
    rw [enrich_step_objections_hit _ _ items rfl rfl]
  · unfold load_enriched_context
    rw [hsplito, List.foldl_cons]
    rw [(foldl_enrich_objections resto _ hnoo).2]
    rw [enrich_step_objections_hit _ _ items rfl rfl]
    have : items.isEmpty = false := by
      cases items with
      | nil => exact absurd rfl hitems
      | cons x xs => rfl
    simp [this]

/-- Witness for C4 (amended) from an empty artifact store. -/
theorem c4_enriched_merge_witness :
    ((([] : List Artifact).filter (fun a => a.lead_id = "L" ∧
      a.artifact_type = "financial_signals" ∧ a.is_current)).length ≤ 1) ∧
    (0 < concern_level_order "moderate") ∧
    (([⟨some "distance"⟩] : List ObjectionItem) ≠ []) ∧
    ((load_enriched_context (create_artifact [] "L" (some "i1")
        "financial_signals" (.financial "moderate" []))
        "L").financial_concern_level = "moderate" ∧
     (load_enriched_context (create_artifact [] "L" (some "i1")
        "objections" (.objections [⟨some "distance"⟩])) "L").objection_topics =
        ([⟨some "distance"⟩] : List ObjectionItem).foldl
          (fun ts o => add_topic ts (o.topic.getD "unknown")) [] ∧
     (load_enriched_context (create_artifact [] "L" (some "i1")
        "objections" (.objections [⟨some "distance"⟩]))
        "L").has_unaddressed_objections = true) :=
  ⟨by decide, by decide, by decide,
   c4_enriched_merge [] "L" "i1" "moderate" [] [⟨some "distance"⟩]
     (by decide) (by decide) (by decide) (by decide)⟩

/- ─── C1: compliance override (corrected) ─────────────────────────────── -/

/-- Counterexample to C1 as stated: for a declined lead (and for an
opted-out last interaction) the terminal decision of the rule engine carries
the action `"no_action"`, not `"stop"` — `"stop"` exists only in the RL
catalog, which `_evaluate_rules` does not use. -/
theorem c1_claim_counterexample :
    (evaluate_rules 0
      { lead_status := "declined", total_interactions := 4,
        total_voice_attempts := 2, total_sms_attempts := 2,
        total_email_attempts := 0,
        last_interaction_channel := some "voice",
        last_interaction_status := some "completed",
        last_interaction_direction := some "outbound",
        last_detected_intent := some "declining", last_sentiment := some "negative",
        hours_since_last_interaction := some 20,
        campaign_goal := none, preferred_channel := none,
        has_phone := true, has_email := true }).action = "no_action" ∧
    (evaluate_rules 0
      { lead_status := "declined", total_interactions := 4,
        total_voice_attempts := 2, total_sms_attempts := 2,
        total_email_attempts := 0,
        last_interaction_channel := some "voice",
        last_interaction_status := some "completed",
        last_interaction_direction := some "outbound",
        last_detected_intent := some "declining", last_sentiment := some "negative",
        hours_since_last_interaction := some 20,
        campaign_goal := none, preferred_channel := none,
        has_phone := true, has_email := true }).action ≠ "stop" := by
  decide

/-- Claim C1 (amended). For every PolicyInputs whose lifecycle status is
"declined" or whose last interaction status is "opted_out", the decision
is the terminal action `"no_action"` (rule "terminal_state" or
"opted_out") with channel none and priority low; persisting it leaves the
Q-table and the transition log untouched, and records no q-value on the
decision (`rl_q_value` stays null — the rule engine carries no q-values at
all, rather than a forced 0). -/
theorem c1_compliance_override (inputs : PolicyInputs) (now : ℚ)
    (h : inputs.lead_status = "declined" ∨
         inputs.last_interaction_status = some "opted_out") :
    (evaluate_rules now inputs).action = "no_action" ∧
    (evaluate_rules now inputs).channel = none ∧
    (evaluate_rules now inputs).priority = "low" ∧
    ((evaluate_rules now inputs).rule_name = "terminal_state" ∨
     (evaluate_rules now inputs).rule_name = "opted_out") ∧
    (∀ (db : DB) (lead : LeadRec) (iid : Option String),
      (persist_nba_decision db lead (evaluate_rules now inputs) iid inputs).1.qtable
          = db.qtable ∧
      (persist_nba_decision db lead (evaluate_rules now inputs) iid inputs).1.transitions
          = db.transitions ∧
      (persist_nba_decision db lead (evaluate_rules now inputs) iid inputs).2.rl_q_value
          = none ∧
      (persist_nba_decision db lead (evaluate_rules now inputs) iid inputs).2.rl_state
          = none) := by
  have hterm : inputs.lead_status = "declined" →
      evaluate_rules now inputs =
        { action := "no_action", channel := none, priority := "low",
          reasoning := "Family has declined; no further outreach.",
          rule_name := "terminal_state", scheduled_for := none } := by
    intro h1
    have ht : rule_terminal_state now inputs = some
        { action := "no_action", channel := none, priority := "low",
          reasoning := "Family has declined; no further outreach.",
          rule_name := "terminal_state", scheduled_for := none } := by
      unfold rule_terminal_state
      rw [if_pos h1]
    unfold evaluate_rules nba_rules
    simp only [List.findSome?_cons, ht]
    rfl
  have hpers : ∀ (r : NBAResult) (db : DB) (lead : LeadRec) (iid : Option String),
      (persist_nba_decision db lead r iid inputs).1.qtable = db.qtable ∧
      (persist_nba_decision db lead r iid inputs).1.transitions = db.transitions ∧
      (persist_nba_decision db lead r iid inputs).2.rl_q_value = none ∧
      (persist_nba_decision db lead r iid inputs).2.rl_state = none := by
    intro r db lead iid
    unfold persist_nba_decision
    exact ⟨rfl, rfl, rfl, rfl⟩
  by_cases h1 : inputs.lead_status = "declined"
  · rw [hterm h1]
    exact ⟨rfl, rfl, rfl, Or.inl rfl, fun db lead iid => hpers _ db lead iid⟩
  · have h2 : inputs.last_interaction_status = some "opted_out" := by
      rcases h with h | h
      · exact absurd h h1
      · exact h
    have ht : rule_terminal_state now inputs = none := by
      unfold rule_terminal_state
      rw [if_neg h1]
    have ho : rule_opted_out now inputs = some
        { action := "no_action", channel := none, priority := "low",
          reasoning := "Lead opted out of communications.",
          rule_name := "opted_out", scheduled_for := none } := by
      unfold rule_opted_out
      rw [if_pos h2]
    have hr : evaluate_rules now inputs =
        { action := "no_action", channel := none, priority := "low",
          reasoning := "Lead opted out of communications.",
          rule_name := "opted_out", scheduled_for := none } := by
      unfold evaluate_rules nba_rules
      simp only [List.findSome?_cons, ht, ho]
      rfl
    rw [hr]
    exact ⟨rfl, rfl, rfl, Or.inr rfl, fun db lead iid => hpers _ db lead iid⟩

/-- Witness for C1 (amended) on an opted-out lead. -/
theorem c1_compliance_override_witness :
    (({ lead_status := "active", total_interactions := 3,
        total_voice_attempts := 1, total_sms_attempts := 2,
        total_email_attempts := 0,
        last_interaction_channel := some "sms",
        last_interaction_status := some "opted_out",
        last_interaction_direction := some "inbound",
        last_detected_intent := some "declining", last_sentiment := some "negative",
        hours_since_last_interaction := some 1,
        campaign_goal := none, preferred_channel := none,
        has_phone := true, has_email := false } : PolicyInputs).lead_status
        = "declined" ∨
     ({ lead_status := "active", total_interactions := 3,
        total_voice_attempts := 1, total_sms_attempts := 2,
        total_email_attempts := 0,
        last_interaction_channel := some "sms",
        last_interaction_status := some "opted_out",
        last_interaction_direction := some "inbound",
        last_detected_intent := some "declining", last_sentiment := some "negative",
        hours_since_last_interaction := some 1,
        campaign_goal := none, preferred_channel := none,
        has_phone := true, has_email := false } : PolicyInputs).last_interaction_status
        = some "opted_out") ∧
    ((evaluate_rules 7
      { lead_status := "active", total_interactions := 3,
        total_voice_attempts := 1, total_sms_attempts := 2,
        total_email_attempts := 0,
        last_interaction_channel := some "sms",
        last_interaction_status := some "opted_out",
        last_interaction_direction := some "inbound",
        last_detected_intent := some "declining", last_sentiment := some "negative",
        hours_since_last_interaction := some 1,
        campaign_goal := none, preferred_channel := none,
        has_phone := true, has_email := false }).action = "no_action") := by
  refine ⟨Or.inr rfl, ?_⟩
  exact (c1_compliance_override
    { lead_status := "active", total_interactions := 3,
      total_voice_attempts := 1, total_sms_attempts := 2,
      total_email_attempts := 0,
      last_interaction_channel := some "sms",
      last_interaction_status := some "opted_out",
      last_interaction_direction := some "inbound",
      last_detected_intent := some "declining", last_sentiment := some "negative",
      hours_since_last_interaction := some 1,
      campaign_goal := none, preferred_channel := none,
      has_phone := true, has_email := false } 7 (Or.inr rfl)).1

/- ─── C2: process_interaction always raises (code bug) ────────────────── -/

/-- Embeds `NBAResult` carries no `semantic_action` attribute. -/
theorem pyAttr_semantic_action_none (r : NBAResult) :
    r.pyAttr "semantic_action" = none := rfl

/-- Claim C2 (code bug). For every existing lead and every interaction
payload, `process_interaction` raises instead of returning: after
persisting the decision, the step-reporting line reads
`action_brief.semantic_action`, but `compute_nba` returns an `NBAResult`
(whose `__init__` sets only action/channel/priority/reasoning/rule_name/
scheduled_for), so an `AttributeError` is raised on every invocation and
the transaction rolls back — contradicting the claim that the pipeline
returns the ordered step list with the decision persisted as current. -/
theorem c2_process_interaction_raises (db : DB) (lead : LeadRec)
    (interaction : InteractionRec) (extraction : LLMExtraction) (now : ℚ) :
    process_interaction db (some lead) interaction extraction now =
      .error (.attributeError "NBAResult" "semantic_action") := by
  unfold process_interaction
  simp only [pyAttr_semantic_action_none]

/-- Witness for C2 at a concrete lead and interaction. -/
theorem c2_process_interaction_raises_witness :
    process_interaction {} (some { id := "L" })
      { id := "i1", channel := "voice", direction := "outbound",
        status := "completed", created_at := some 0 }
      { summary := "s", facts := [], intent := "interested",
        sentiment := "positive" } 1 =
      .error (.attributeError "NBAResult" "semantic_action") :=
  c2_process_interaction_raises {} { id := "L" }
    { id := "i1", channel := "voice", direction := "outbound",
      status := "completed", created_at := some 0 }
    { summary := "s", facts := [], intent := "interested",
      sentiment := "positive" } 1

/- ─── C3: the Q-update step never fires (code bug) ────────────────────── -/

/-- Superseding leaves no current decision among the pre-existing rows. -/
theorem filter_map_supersede (lead_id : String) :
    ∀ l : List DecisionRec,
      (l.map (fun d => if d.lead_id = lead_id ∧ d.is_current
        then { d with is_current := false, status := "superseded" } else d)).filter
        (fun d => d.lead_id = lead_id ∧ d.is_current) = [] := by
  intro l
  induction l with
  | nil => rfl
  | cons x xs ih =>
    rw [List.map_cons]
    by_cases hx : x.lead_id = lead_id ∧ x.is_current
    · rw [if_pos hx, List.filter_cons_of_neg (by simp)]
      exact ih
    · rw [if_neg hx, List.filter_cons_of_neg (by simpa using hx)]
      exact ih

/-- After `persist_nba_decision`, the current decision of the lead is the newly
created row — whose `rl_state` is null, because the create call passes no
RL fields. -/
theorem current_decision_after_persist (db : DB) (lead : LeadRec)
    (r : NBAResult) (iid : Option String) (inputs : PolicyInputs) :
    ∃ d : DecisionRec,
      current_decision (persist_nba_decision db lead r iid inputs).1 lead.id =
        some d ∧ d.rl_state = none := by
  unfold persist_nba_decision current_decision
  rw [List.filter_append, filter_map_supersede lead.id db.decisions,
      List.nil_append]
  exact ⟨_, by rw [List.filter_cons_of_pos (by simp)]; rfl, rfl⟩

/-- Claim C3 (code bug). The learning step can never fire: every decision
persisted by `persist_nba_decision` has a null `rl_state` (the create call
omits the RL fields the model and processor expect), so
`_update_q_table_from_transition` returns without performing a Q-update or
appending a StateTransition — even for a status-changing interaction with
a prior decision; and with no current decision at all it likewise does
nothing.  The claimed "exactly one Q-update … exactly one StateTransition"
therefore never happens. -/
theorem c3_q_update_never_fires (db : DB) (lead : LeadRec) (r : NBAResult)
    (iid : Option String) (inputs : PolicyInputs)
    (old_status new_status : String) :
    (update_q_table_from_transition
        (persist_nba_decision db lead r iid inputs).1 lead old_status new_status =
      ((persist_nba_decision db lead r iid inputs).1, none)) ∧
    (∀ d : DB, current_decision d lead.id = none →
      update_q_table_from_transition d lead old_status new_status = (d, none)) := by
  constructor
  · obtain ⟨d, hd, hrl⟩ := current_decision_after_persist db lead r iid inputs
    unfold update_q_table_from_transition
    rw [hd]
    simp [hrl]
  · intro d hd
    unfold update_q_table_from_transition
    rw [hd]

/-- Witness for C3 at a concrete database and lead. -/
theorem c3_q_update_never_fires_witness :
    (update_q_table_from_transition
        (persist_nba_decision {} { id := "L" }
          { action := "call", channel := some "voice", priority := "normal",
            reasoning := "", rule_name := "default_follow_up",
            scheduled_for := some 24 } (some "i1")
          { lead_status := "new", total_interactions := 0,
            total_voice_attempts := 0, total_sms_attempts := 0,
            total_email_attempts := 0, last_interaction_channel := none,
            last_interaction_status := none, last_interaction_direction := none,
            last_detected_intent := none, last_sentiment := none,
            hours_since_last_interaction := none, campaign_goal := none,
            preferred_channel := none, has_phone := true, has_email := false }).1
        { id := "L" } "new" "contacted" =
      ((persist_nba_decision {} { id := "L" }
          { action := "call", channel := some "voice", priority := "normal",
            reasoning := "", rule_name := "default_follow_up",
            scheduled_for := some 24 } (some "i1")
          { lead_status := "new", total_interactions := 0,
            total_voice_attempts := 0, total_sms_attempts := 0,
            total_email_attempts := 0, last_interaction_channel := none,
            last_interaction_status := none, last_interaction_direction := none,
            last_detected_intent := none, last_sentiment := none,
            hours_since_last_interaction := none, campaign_goal := none,
            preferred_channel := none, has_phone := true, has_email := false }).1,
       none)) ∧
    (∀ d : DB, current_decision d "L" = none →
      update_q_table_from_transition d { id := "L" } "new" "contacted" =
        (d, none)) :=
  c3_q_update_never_fires {} { id := "L" }
    { action := "call", channel := some "voice", priority := "normal",
      reasoning := "", rule_name := "default_follow_up",
      scheduled_for := some 24 } (some "i1")
    { lead_status := "new", total_interactions := 0,
      total_voice_attempts := 0, total_sms_attempts := 0,
      total_email_attempts := 0, last_interaction_channel := none,
      last_interaction_status := none, last_interaction_direction := none,
      last_detected_intent := none, last_sentiment := none,
      hours_since_last_interaction := none, campaign_goal := none,
      preferred_channel := none, has_phone := true, has_email := false }
    "new" "contacted"
